import Mathlib

/-!
Verification development for the Sentinel monitoring pipeline.

Shallow embedding of the pipeline components in `app/`:
  - `app/utils/schema_diff.py`        → `Sentinel.SchemaDiff`
  - `app/monitoring/performance_tracker.py` → `Sentinel.PerformanceTracker`
  - `app/monitoring/risk_engine.py`   → `Sentinel.RiskEngine`
  - `app/monitoring/anomaly_engine.py`→ `Sentinel.AnomalyEngine`
  - `app/monitoring/api_runner.py`    → `Sentinel.ApiRunner`
  - `app/alerts/payload.py`           → `Sentinel.Alerts`
  - `app/monitoring/runner_service.py` (anomaly persistence shape) → `Sentinel.RunnerService`
  - `app/scheduler/engine.py`         → `Sentinel.Scheduler`

Python `float` values are modelled as rationals (`ℚ`); Python's `round(x, n)`
(banker's rounding) is modelled exactly by `pyRound1` / `pyRound2` below.
-/

namespace Sentinel

/-- Round-half-to-even on rationals: the rounding mode of Python's builtin
`round`.  `roundHalfEven x` is the integer nearest to `x`, ties going to the
even integer. -/
def roundHalfEven (x : ℚ) : ℤ :=
  if x - ⌊x⌋ < 1/2 then ⌊x⌋
  else if 1/2 < x - ⌊x⌋ then ⌊x⌋ + 1
  else if ⌊x⌋ % 2 = 0 then ⌊x⌋ else ⌊x⌋ + 1

/-- Python `round(x, 1)`. -/
def pyRound1 (x : ℚ) : ℚ := (roundHalfEven (x * 10) : ℚ) / 10

/-- Python `round(x, 2)`. -/
def pyRound2 (x : ℚ) : ℚ := (roundHalfEven (x * 100) : ℚ) / 100

/-- `_clamp` from `risk_engine.py`: `max(lo, min(hi, value))`. -/
def clamp (value lo hi : ℚ) : ℚ := max lo (min hi value)

namespace SchemaDiff

/-- JSON values as stored in Python dicts (`app/utils/schema_diff.py` walks
Python objects decoded from JSON): `None`, `bool`, `int`, `float`, `str`,
`list`, `dict`. -/
inductive Json where
  | null
  | bool (b : Bool)
  | int (n : ℤ)
  | float (q : ℚ)
  | str (s : String)
  | arr (elems : List Json)
  | obj (fields : List (String × Json))
deriving Repr

/-- `type(value).__name__` for the embedded JSON values. -/
def typeName : Json → String
  | .null => "NoneType"
  | .bool _ => "bool"
  | .int _ => "int"
  | .float _ => "float"
  | .str _ => "str"
  | .arr _ => "list"
  | .obj _ => "dict"

/-- Is this value Python `None`? -/
def Json.isNull : Json → Bool
  | .null => true
  | _ => false

/-- Keys of a dict (`expected.keys()`). -/
def keysOf (l : List (String × Json)) : List String := l.map Prod.fst

/-- The fields of a value when it is a dict (`isinstance(v, dict)`). -/
def Json.objFields? : Json → Option (List (String × Json))
  | .obj fs => some fs
  | _ => none

/-- The first element of a value when it is a non-empty list
(`exp_val and exp_val[0]`). -/
def Json.arrHead? : Json → Option Json
  | .arr (x :: _) => some x
  | _ => none

/-- Counts of the three difference categories collected by `_walk`.
The source accumulates `SchemaDifference` records (kind, path, type labels);
every claim concerns only the category counts, so the embedding collects
the counts. -/
structure DiffCounts where
  missing_count : Nat := 0
  new_count : Nat := 0
  type_mismatch_count : Nat := 0
deriving Repr, DecidableEq

instance : Zero DiffCounts := ⟨{}⟩

/-- Pointwise addition of difference counts. -/
def DiffCounts.add (x y : DiffCounts) : DiffCounts :=
  ⟨x.missing_count + y.missing_count, x.new_count + y.new_count,
   x.type_mismatch_count + y.type_mismatch_count⟩

instance : Add DiffCounts := ⟨DiffCounts.add⟩

instance : AddCommMonoid DiffCounts where
  add_assoc a b c := by
    show DiffCounts.add (DiffCounts.add a b) c = DiffCounts.add a (DiffCounts.add b c)
    simp [DiffCounts.add, Nat.add_assoc]
  zero_add a := by
    show DiffCounts.add {} a = a
    simp [DiffCounts.add]
  add_zero a := by
    show DiffCounts.add a {} = a
    simp [DiffCounts.add]
  add_comm a b := by
    show DiffCounts.add a b = DiffCounts.add b a
    simp [DiffCounts.add, Nat.add_comm]
  nsmul := nsmulRec

mutual

/-- `_walk(expected, actual, ...)` from `schema_diff.py`, restricted to the
difference counts.  The three loops of the source (missing keys, new keys,
common keys) appear in order; the source iterates common keys in sorted
order, which affects only the order of the reported difference records,
not any count. -/
def walkObj (e a : List (String × Json)) : DiffCounts :=
  let eks := keysOf e
  let aks := keysOf a
  let missing := (eks.filter (fun k => !(aks.contains k))).length
  let newFs := (aks.filter (fun k => !(eks.contains k))).length
  let common := walkCommon e a
  { missing_count := missing + common.missing_count,
    new_count := newFs + common.new_count,
    type_mismatch_count := common.type_mismatch_count }
termination_by sizeOf e + sizeOf a + 1
decreasing_by omega

/-- The common-keys loop of `_walk`: for each key of `expected` also present
in `actual`, compare the two values. -/
def walkCommon (e a : List (String × Json)) : DiffCounts :=
  match e with
  | [] => 0
  | (k, ev) :: rest =>
    (match h : List.lookup k a with
     | none => (0 : DiffCounts)
     | some av => walkPair ev av) + walkCommon rest a
termination_by sizeOf e + sizeOf a
decreasing_by
· have hlt : ∀ (l : List (String × Json)) (v : Json),
      List.lookup k l = some v → sizeOf v < sizeOf l := by
    intro l
    induction l with
    | nil => intro v hv; simp [List.lookup] at hv
    | cons p tl ih =>
      intro v hv
      obtain ⟨k', v'⟩ := p
      rw [List.lookup_cons] at hv
      cases hkk : (k == k') with
      | true =>
        rw [hkk] at hv
        simp only [Option.some.injEq] at hv
        subst hv
        simp only [List.cons.sizeOf_spec, Prod.mk.sizeOf_spec]
        omega
      | false =>
        rw [hkk] at hv
        have := ih v hv
        simp only [List.cons.sizeOf_spec]
        omega
  have := hlt a av h
  simp only [List.cons.sizeOf_spec, Prod.mk.sizeOf_spec]
  omega
· simp only [List.cons.sizeOf_spec, Prod.mk.sizeOf_spec]
  omega

/-- The per-common-key body of `_walk`: null semantics, type comparison,
recursion into nested dicts and into the first elements of lists of dicts. -/
def walkPair (ev av : Json) : DiffCounts :=
  if av.isNull && !ev.isNull then { type_mismatch_count := 1 }
  else if ev.isNull then 0
  else if typeName ev ≠ typeName av then { type_mismatch_count := 1 }
  else
    match ev, av with
    | .obj ef, .obj af => walkObj ef af
    | .arr (e0 :: _), .arr (a0 :: _) =>
      (match e0, a0 with
       | .obj ef, .obj af => walkObj ef af
       | _, _ => 0)
    | _, _ => 0
termination_by sizeOf ev + sizeOf av
decreasing_by
all_goals simp_arith [Json.obj.sizeOf_spec, Json.arr.sizeOf_spec,
  List.cons.sizeOf_spec]

end

mutual

/-- No `null` occurs anywhere in the value. -/
def nullFree : Json → Bool
  | .null => false
  | .bool _ => true
  | .int _ => true
  | .float _ => true
  | .str _ => true
  | .arr xs => nullFreeList xs
  | .obj fs => nullFreeFields fs
termination_by j => sizeOf j

def nullFreeList : List Json → Bool
  | [] => true
  | x :: xs => nullFree x && nullFreeList xs
termination_by l => sizeOf l

def nullFreeFields : List (String × Json) → Bool
  | [] => true
  | (_, v) :: fs => nullFree v && nullFreeFields fs
termination_by l => sizeOf l

end

mutual

/-- Every object in the value has pairwise-distinct keys (always true of a
value decoded from a Python dict). -/
def wfKeys : Json → Bool
  | .null => true
  | .bool _ => true
  | .int _ => true
  | .float _ => true
  | .str _ => true
  | .arr xs => wfKeysList xs
  | .obj fs => decide (keysOf fs).Nodup && wfKeysFields fs
termination_by j => sizeOf j

def wfKeysList : List Json → Bool
  | [] => true
  | x :: xs => wfKeys x && wfKeysList xs
termination_by l => sizeOf l

def wfKeysFields : List (String × Json) → Bool
  | [] => true
  | (_, v) :: fs => wfKeys v && wfKeysFields fs
termination_by l => sizeOf l

end

/-- A well-formed dict: distinct keys at top level, and every nested object
well-formed. -/
def wfFields (l : List (String × Json)) : Bool :=
  decide (keysOf l).Nodup && wfKeysFields l

/-- Aggregate result of `compute_diff` (`SchemaDiffResult` in the source,
with the difference lists abstracted to their counts). -/
structure SchemaDiffResult where
  has_drift : Bool := false
  missing_count : Nat := 0
  new_count : Nat := 0
  type_mismatch_count : Nat := 0
  total_differences : Nat := 0
deriving Repr, DecidableEq

/-- `compute_diff(expected, actual)` from `schema_diff.py`. -/
def compute_diff (expected actual : List (String × Json)) : SchemaDiffResult :=
  let c := walkObj expected actual
  let total := c.missing_count + c.new_count + c.type_mismatch_count
  { has_drift := total > 0,
    missing_count := c.missing_count,
    new_count := c.new_count,
    type_mismatch_count := c.type_mismatch_count,
    total_differences := total }

end SchemaDiff

namespace SchemaValidator

/-- `DriftAnalysis` from `schema_validator.py`: either a diff result or a
skip reason. -/
structure DriftAnalysis where
  diff : Option SchemaDiff.SchemaDiffResult := none
  skipped_reason : Option String := none
deriving Repr, DecidableEq

/-- `DriftAnalysis.has_drift`: `self.diff is not None and self.diff.has_drift`. -/
def DriftAnalysis.has_drift (d : DriftAnalysis) : Bool :=
  match d.diff with
  | some x => x.has_drift
  | none => false

/-- `DriftAnalysis.drift_count`: `0` when there is no diff, else
`diff.total_differences`. -/
def DriftAnalysis.drift_count (d : DriftAnalysis) : Nat :=
  match d.diff with
  | some x => x.total_differences
  | none => 0

end SchemaValidator

namespace PerformanceTracker

/-- `PerformanceResult` from `performance_tracker.py`.  The
`rolling_stddev_ms` field (a square root, hence irrational) is carried by
no claim and is not modelled; all other fields are kept. -/
structure PerformanceResult where
  current_time_ms : ℚ
  rolling_avg_ms : Option ℚ := none
  rolling_median_ms : Option ℚ := none
  deviation_percent : Option ℚ := none
  is_spike : Bool := false
  is_critical_spike : Bool := false
  sample_size : Nat := 0
deriving Repr, DecidableEq

/-- `PerformanceResult.has_enough_data`: `sample_size >= 3`. -/
def PerformanceResult.has_enough_data (p : PerformanceResult) : Bool :=
  p.sample_size ≥ 3

/-- `statistics.median` on rationals: sort, take the middle element, or the
mean of the two middle elements. -/
def medianQ (l : List ℚ) : ℚ :=
  let s := l.mergeSort (fun a b => a ≤ b)
  let n := s.length
  if n % 2 = 1 then s.getD (n / 2) 0
  else (s.getD (n / 2 - 1) 0 + s.getD (n / 2) 0) / 2

/-- `PerformanceTracker.analyse` from `performance_tracker.py`,
parameterised by the constructor arguments (`window_size`,
`spike_threshold_percent`, `critical_spike_threshold_percent`). -/
def analyse (window_size : Nat) (spike_threshold critical_spike_threshold : ℚ)
    (current_time_ms : ℚ) (historical_times : List ℚ) : PerformanceResult :=
  let window := historical_times.take window_size
  let sample_size := window.length
  if sample_size < 2 then
    { current_time_ms := current_time_ms,
      rolling_avg_ms := if sample_size = 1 then window.head? else none,
      rolling_median_ms := if sample_size = 1 then window.head? else none,
      deviation_percent := none,
      is_spike := false,
      is_critical_spike := false,
      sample_size := sample_size }
  else
    let rolling_avg := window.sum / (sample_size : ℚ)
    let rolling_median := medianQ window
    let deviation_pct :=
      if rolling_avg > 0 then
        pyRound2 ((current_time_ms - rolling_avg) / rolling_avg * 100)
      else 0
    { current_time_ms := pyRound2 current_time_ms,
      rolling_avg_ms := some (pyRound2 rolling_avg),
      rolling_median_ms := some (pyRound2 rolling_median),
      deviation_percent := some deviation_pct,
      is_spike := deviation_pct ≥ spike_threshold,
      is_critical_spike := deviation_pct ≥ critical_spike_threshold,
      sample_size := sample_size }

/-- The module-level singleton `performance_tracker = PerformanceTracker()`:
defaults `window_size = 20`, spike threshold `50`, critical threshold `150`. -/
def analyseDefault (current_time_ms : ℚ) (historical_times : List ℚ) :
    PerformanceResult :=
  analyse 20 50 150 current_time_ms historical_times

end PerformanceTracker

namespace AnomalyEngine

/-- `AnomalyResult` from `anomaly_engine.py`. -/
structure AnomalyResult where
  anomaly_detected : Bool := false
  severity_score : ℚ := 0
  reasoning : String := ""
  probable_cause : String := ""
  confidence : ℚ := 0
  recommendation : String := ""
  skipped_reason : Option String := none
  ai_called : Bool := false
  used_fallback : Bool := false
deriving Repr, DecidableEq

/-- The `NO_ANOMALY` sentinel. -/
def NO_ANOMALY : AnomalyResult :=
  { skipped_reason := some "All signals healthy — AI skipped", confidence := 1 }

/-- Python's `needle in hay` substring test. -/
def strContains (hay needle : String) : Bool :=
  (hay.splitOn needle).length > 1

/-- Python `f"{q:+.0f}"`: round-half-even to an integer and render with an
explicit sign. -/
def fmtSigned0 (q : ℚ) : String :=
  let n := roundHalfEven q
  if 0 ≤ n then "+" ++ toString n else toString n

/-- Python `f"{q:.0f}"`. -/
def fmt0 (q : ℚ) : String := toString (roundHalfEven q)

/-- The "Status failure" block of `_rule_based_analysis`: the severity
addition together with the appended reason, cause and recommendation. -/
def statusPart (is_success : Bool) (actual_status : Option ℤ)
    (expected_status : ℤ) : ℚ × List String × List String × List String :=
  if !is_success then
    match actual_status with
    | none =>
      (60, ["Request failed with no response"],
       ["Connection timeout or DNS failure"],
       ["Check endpoint availability and network connectivity"])
    | some st =>
      if st ≥ 500 then
        (50, ["Server error: HTTP " ++ toString st],
         ["Upstream server issue"],
         ["Check server logs and health status"])
      else if st ≥ 400 then
        (25, ["Client error: HTTP " ++ toString st ++ " (expected " ++
              toString expected_status ++ ")"],
         ["Request configuration or authentication issue"],
         ["Verify endpoint configuration and credentials"])
      else (0, [], [], [])
  else (0, [], [], [])

/-- The "Error message" block of `_rule_based_analysis` (Python's
`if error_message:` skips both `None` and the empty string). -/
def errorPart (error_message : Option String) :
    ℚ × List String × List String :=
  match error_message with
  | some em =>
    if em ≠ "" then
      if strContains em.toLower "timeout" then
        (20, ["Request timed out"], ["Slow response or network latency"])
      else if strContains em.toLower "connection" then
        (30, ["Connection error"], ["Service unreachable or DNS failure"])
      else (0, [], [])
    else (0, [], [])
  | none => (0, [], [])

/-- The "Performance spike" block of `_rule_based_analysis`. -/
def perfPart (performance : Option PerformanceTracker.PerformanceResult) :
    ℚ × List String × List String × List String :=
  match performance with
  | some p =>
    if p.is_critical_spike then
      (35, ["Critical latency spike: " ++
            fmtSigned0 (p.deviation_percent.getD 0) ++ "% deviation"],
       ["Resource exhaustion or downstream bottleneck"],
       ["Profile the endpoint and check system resources"])
    else if p.is_spike then
      (20, ["Latency spike detected: " ++
            fmtSigned0 (p.deviation_percent.getD 0) ++ "% above average"],
       ["Temporary load increase or network jitter"], [])
    else (0, [], [], [])
  | none => (0, [], [], [])

/-- The "Schema drift" block of `_rule_based_analysis`. -/
def driftPart (drift : Option SchemaValidator.DriftAnalysis) :
    ℚ × List String × List String × List String :=
  match drift with
  | some d =>
    if d.has_drift then
      if d.drift_count ≥ 5 then
        (25, ["Significant schema drift: " ++ toString d.drift_count ++
              " differences"],
         ["API contract changed"],
         ["Review API changelog and update expected schema"])
      else
        (10, ["Minor schema drift: " ++ toString d.drift_count ++
              " difference(s)"],
         ["Response structure variation"], [])
    else (0, [], [], [])
  | none => (0, [], [], [])

/-- The "Historical failure rate" block of `_rule_based_analysis`. -/
def ratePart (failure_rate_percent : ℚ) : ℚ × List String × List String :=
  if failure_rate_percent ≥ 30 then
    (15, ["High historical failure rate: " ++ fmt0 failure_rate_percent ++
          "%"],
     ["Investigate recurring failures"])
  else (0, [], [])

/-- `AnomalyEngine._rule_based_analysis` from `anomaly_engine.py`: the
deterministic fallback scorer.  The five blocks above are the source's
commented sections, in order; this assembles them exactly as the source's
accumulating variables do. -/
def rule_based_analysis (is_success : Bool) (error_message : Option String)
    (actual_status : Option ℤ) (expected_status : ℤ)
    (performance : Option PerformanceTracker.PerformanceResult)
    (drift : Option SchemaValidator.DriftAnalysis)
    (failure_rate_percent : ℚ) : AnomalyResult :=
  let sp := statusPart is_success actual_status expected_status
  let ep := errorPart error_message
  let pp := perfPart performance
  let dp := driftPart drift
  let rp := ratePart failure_rate_percent
  let severity0 := sp.1 + ep.1 + pp.1 + dp.1 + rp.1
  let severity := clamp severity0 0 100
  let detected := severity ≥ 20
  let reasons := sp.2.1 ++ ep.2.1 ++ pp.2.1 ++ dp.2.1 ++ rp.2.1
  let causes := sp.2.2.1 ++ ep.2.2 ++ pp.2.2.1 ++ dp.2.2.1
  let recommendations := sp.2.2.2 ++ pp.2.2.2 ++ dp.2.2.2 ++ rp.2.2
  { anomaly_detected := detected,
    severity_score := severity,
    reasoning := if reasons ≠ [] then String.intercalate ". " reasons
                 else "No anomalies detected",
    probable_cause := if causes ≠ [] then String.intercalate "; " causes
                      else "No issues identified",
    confidence := if detected then 6/10 else 8/10,
    recommendation := if recommendations ≠ [] then
        String.intercalate ". " recommendations
      else "Continue monitoring",
    ai_called := false,
    used_fallback := true }

/-- The severity formula as the claim words it: the sum of the additions of
*every* table condition that holds, clamped to `[0, 100]`.  Written from
the claim, to be compared with `rule_based_analysis`. -/
def claimFallbackSeverity (is_success : Bool) (error_message : Option String)
    (actual_status : Option ℤ)
    (performance : Option PerformanceTracker.PerformanceResult)
    (drift : Option SchemaValidator.DriftAnalysis)
    (failure_rate_percent : ℚ) : ℚ :=
  let emTimeout := match error_message with
    | some em => strContains em.toLower "timeout"
    | none => false
  let emConnection := match error_message with
    | some em => strContains em.toLower "connection"
    | none => false
  let spike := match performance with
    | some p => p.is_spike
    | none => false
  let criticalSpike := match performance with
    | some p => p.is_critical_spike
    | none => false
  let driftCount := match drift with
    | some d => d.drift_count
    | none => 0
  clamp (
    (if !is_success && actual_status.isNone then 60 else 0) +
    (match actual_status with
      | some st => if st ≥ 500 then (50 : ℚ) else 0
      | none => 0) +
    (if !is_success then
      match actual_status with
        | some st => if st ≥ 400 then (25 : ℚ) else 0
        | none => 0
     else 0) +
    (if emTimeout then 20 else 0) +
    (if emConnection then 30 else 0) +
    (if criticalSpike then 35 else 0) +
    (if spike && !criticalSpike then 20 else 0) +
    (if driftCount ≥ 5 then 25 else 0) +
    (if 1 ≤ driftCount ∧ driftCount ≤ 4 then 10 else 0) +
    (if failure_rate_percent ≥ 30 then 15 else 0)) 0 100

/-- The amended severity formula: like `claimFallbackSeverity`, but with
the three status rows mutually exclusive (no-response, else `≥ 500`, else
`≥ 400`) and the two error-message rows mutually exclusive (`timeout`
checked first), matching the source's `elif` chains.  The remaining rows
stay additive. -/
def amendedFallbackSeverity (is_success : Bool) (error_message : Option String)
    (actual_status : Option ℤ)
    (performance : Option PerformanceTracker.PerformanceResult)
    (drift : Option SchemaValidator.DriftAnalysis)
    (failure_rate_percent : ℚ) : ℚ :=
  let statusAdd : ℚ :=
    if is_success then 0
    else match actual_status with
      | none => 60
      | some st => if st ≥ 500 then 50 else if st ≥ 400 then 25 else 0
  let errorAdd : ℚ :=
    match error_message with
    | some em =>
      if em ≠ "" then
        if strContains em.toLower "timeout" then 20
        else if strContains em.toLower "connection" then 30
        else 0
      else 0
    | none => 0
  let spikeAdd : ℚ :=
    match performance with
    | some p => if p.is_critical_spike then 35 else if p.is_spike then 20 else 0
    | none => 0
  let driftAdd : ℚ :=
    match drift with
    | some d =>
      if d.has_drift then (if d.drift_count ≥ 5 then 25 else 10) else 0
    | none => 0
  let rateAdd : ℚ := if failure_rate_percent ≥ 30 then 15 else 0
  clamp (statusAdd + errorAdd + spikeAdd + driftAdd + rateAdd) 0 100

end AnomalyEngine

namespace RiskEngine

/-- `RiskResult` from `risk_engine.py`. -/
structure RiskResult where
  calculated_score : ℚ := 0
  risk_level : String := "LOW"
  status_score : ℚ := 0
  performance_score : ℚ := 0
  drift_score : ℚ := 0
  ai_score : ℚ := 0
  history_score : ℚ := 0
deriving Repr, DecidableEq

/-- `_classify` from `risk_engine.py`. -/
def classify (score : ℚ) : String :=
  if score ≥ 75 then "CRITICAL"
  else if score ≥ 50 then "HIGH"
  else if score ≥ 25 then "MEDIUM"
  else "LOW"

def W_STATUS : ℚ := 35
def W_PERFORMANCE : ℚ := 25
def W_DRIFT : ℚ := 20
def W_AI : ℚ := 15
def W_HISTORY : ℚ := 5
def PERF_MAX_DEVIATION : ℚ := 300
def DRIFT_MAX_DIFFS : ℚ := 10
def HISTORY_MAX_RATE : ℚ := 50

/-- Step 1 of `RiskEngine.score`: the status component (binary pass/fail). -/
def status_component (is_success : Bool) : ℚ :=
  if is_success then 0 else W_STATUS

/-- Step 2 of `RiskEngine.score`: the performance component (scaled by
deviation %, only positive deviations count, critical spikes boosted to the
full weight). -/
def performance_component
    (performance : Option PerformanceTracker.PerformanceResult) : ℚ :=
  match performance with
  | some p =>
    match p.deviation_percent with
    | some dev =>
      if dev > 0 then
        if p.is_critical_spike then W_PERFORMANCE
        else clamp (|dev| / PERF_MAX_DEVIATION) 0 1 * W_PERFORMANCE
      else 0
    | none => 0
  | none => 0

/-- Step 3 of `RiskEngine.score`: the schema-drift component (scaled by
diff count). -/
def drift_component (drift : Option SchemaValidator.DriftAnalysis) : ℚ :=
  match drift with
  | some d =>
    if d.has_drift then
      clamp ((d.drift_count : ℚ) / DRIFT_MAX_DIFFS) 0 1 * W_DRIFT
    else 0
  | none => 0

/-- Step 4 of `RiskEngine.score`: the AI / fallback severity component. -/
def ai_component (anomaly : Option AnomalyEngine.AnomalyResult) : ℚ :=
  match anomaly with
  | some a =>
    if a.anomaly_detected && (a.ai_called || a.used_fallback) then
      a.severity_score / 100 * W_AI
    else 0
  | none => 0

/-- Step 5 of `RiskEngine.score`: the historical failure-rate component. -/
def history_component (failure_rate_percent : ℚ) : ℚ :=
  if failure_rate_percent > 0 then
    clamp (failure_rate_percent / HISTORY_MAX_RATE) 0 1 * W_HISTORY
  else 0

/-- `RiskEngine.score` from `risk_engine.py`: the five component steps
above (the source's numbered sections, in order) composed exactly as the
source composes them. -/
def score (is_success : Bool)
    (performance : Option PerformanceTracker.PerformanceResult)
    (drift : Option SchemaValidator.DriftAnalysis)
    (anomaly : Option AnomalyEngine.AnomalyResult)
    (failure_rate_percent : ℚ) : RiskResult :=
  let status_score := status_component is_success
  let performance_score := performance_component performance
  let drift_score := drift_component drift
  let ai_score := ai_component anomaly
  let history_score := history_component failure_rate_percent
  let total := pyRound1 (clamp
    (status_score + performance_score + drift_score + ai_score + history_score)
    0 100)
  { calculated_score := total,
    risk_level := classify total,
    status_score := pyRound1 status_score,
    performance_score := pyRound1 performance_score,
    drift_score := pyRound1 drift_score,
    ai_score := pyRound1 ai_score,
    history_score := pyRound1 history_score }

/-- The level bucket table of the specification (§4.6): `[0,25) → LOW`,
`[25,50) → MEDIUM`, `[50,75) → HIGH`, `[75,100] → CRITICAL`.  Written from
the spec's words, to be compared with `classify`. -/
def bucketSpec (s : ℚ) : String :=
  if s < 25 then "LOW"
  else if s < 50 then "MEDIUM"
  else if s < 75 then "HIGH"
  else "CRITICAL"

end RiskEngine

namespace ApiRunner

/-- The observable outcome of one HTTP attempt, abstracting the network and
the clock: either a response (with its status, a measured elapsed time in
milliseconds, and the body as decoded by `_safe_parse_json`) or one of the
exception classes caught by `_single_attempt`. -/
inductive AttemptOutcome where
  | response (status : ℤ) (elapsed_ms : ℚ) (body : Option SchemaDiff.Json)
  | timeout (elapsed_ms : ℚ) (msg : String)
  | connectError (msg : String)
  | httpError (msg : String)
  | unexpected (msg : String)
deriving Repr

/-- `RunResult` from `api_runner.py`. -/
structure RunResult where
  status_code : Option ℤ := none
  response_time_ms : Option ℚ := none
  response_body : Option SchemaDiff.Json := none
  is_success : Bool := false
  error_message : Option String := none
deriving Repr

/-- `ApiRunner._single_attempt`: builds the `RunResult` for one attempt.
`elapsed_ms` is the measured duration `(perf_counter() - start) * 1000`,
which the source rounds to two decimals. -/
def single_attempt (expected_status : ℤ) (timeout_s : ℚ)
    (o : AttemptOutcome) : RunResult :=
  match o with
  | .response st t body =>
    { status_code := some st,
      response_time_ms := some (pyRound2 t),
      response_body := body,
      is_success := st == expected_status }
  | .timeout t msg =>
    { response_time_ms := some (pyRound2 t),
      error_message := some ("Timeout after " ++ toString timeout_s ++ "s: "
        ++ msg) }
  | .connectError msg =>
    { error_message := some ("Connection error: " ++ msg) }
  | .httpError msg =>
    { error_message := some ("HTTP error: " ++ msg) }
  | .unexpected msg =>
    { error_message := some ("Unexpected error: " ++ msg) }

/-- The observable effect of one `execute` call: the returned result, how
many attempts ran, and the durations of the `asyncio.sleep` calls between
attempts, in order. -/
structure ExecTrace where
  result : RunResult
  attempts_used : Nat
  sleeps : List ℚ
deriving Repr

/-- The retry loop of `ApiRunner.execute`, with `remaining` attempts left
(current one included) and `attempt` the current attempt number.
`attemptOf n` is the outcome of the `n`-th attempt (`n` counted from 1, as
in the source's `range(1, max_retries + 1)`). -/
def executeAux (expected_status : ℤ) (timeout_s backoff : ℚ)
    (attemptOf : Nat → AttemptOutcome) (remaining attempt : Nat) :
    ExecTrace :=
  let r := single_attempt expected_status timeout_s (attemptOf attempt)
  if r.is_success || r.status_code.isSome then ⟨r, attempt, []⟩
  else
    match remaining with
    | 0 => ⟨r, attempt, []⟩
    | 1 => ⟨r, attempt, []⟩
    | n + 2 =>
      let rest := executeAux expected_status timeout_s backoff attemptOf
        (n + 1) (attempt + 1)
      ⟨rest.result, rest.attempts_used, (backoff * (attempt : ℚ)) :: rest.sleeps⟩

/-- `ApiRunner.execute`: runs up to `max_retries` attempts.  With
`max_retries = 0` the source's loop body never runs and the method returns
its `None`-initialised `last_result`, modelled as `none`. -/
def execute (expected_status : ℤ) (timeout_s : ℚ) (max_retries : Nat)
    (backoff : ℚ) (attemptOf : Nat → AttemptOutcome) : Option ExecTrace :=
  match max_retries with
  | 0 => none
  | n + 1 => some (executeAux expected_status timeout_s backoff attemptOf (n + 1) 1)

end ApiRunner

namespace RunnerService

/-- The fields of a persisted `ApiRun` row used downstream (payload builder
and anomaly persistence); identifiers are modelled as strings. -/
structure ApiRun where
  id : String
  endpoint_id : String
  status_code : Option ℤ := none
  response_time_ms : Option ℚ := none
  is_success : Bool := false
  error_message : Option String := none
deriving Repr, DecidableEq

/-- `PipelineResult` from `runner_service.py`. -/
structure PipelineResult where
  run : ApiRun
  performance : Option PerformanceTracker.PerformanceResult := none
  schema_drift : Option SchemaValidator.DriftAnalysis := none
  anomaly : Option AnomalyEngine.AnomalyResult := none
  risk : Option RiskEngine.RiskResult := none
  endpoint_name : String := ""
  endpoint_url : String := ""
  endpoint_method : String := ""
deriving Repr

/-- A row of the `anomalies` table (`app/models/anomaly.py`), including the
trust and explainability columns added by migration 003 together with their
column defaults (`confidence = 0`, `recommendation = NULL`,
`ai_called = false`, `used_fallback = false`). -/
structure AnomalyRow where
  api_run_id : String
  anomaly_detected : Bool
  severity_score : ℚ := 0
  reasoning : Option String := none
  probable_cause : Option String := none
  confidence : ℚ := 0
  recommendation : Option String := none
  ai_called : Bool := false
  used_fallback : Bool := false
deriving Repr, DecidableEq

/-- Step 8 of `RunnerService.execute_endpoint`: the `Anomaly` row built when
`anomaly.anomaly_detected` holds.  The source passes only `api_run_id`,
`anomaly_detected`, `severity_score`, `reasoning` and `probable_cause` to
the constructor; every other column keeps its model default. -/
def persistAnomalyRecord (api_run_id : String)
    (a : AnomalyEngine.AnomalyResult) : AnomalyRow :=
  { api_run_id := api_run_id,
    anomaly_detected := a.anomaly_detected,
    severity_score := a.severity_score,
    reasoning := some a.reasoning,
    probable_cause := some a.probable_cause }

end RunnerService

namespace Alerts

/-- The optional `anomaly` object of the webhook payload. -/
structure AnomalyPayload where
  severity_score : ℚ
  reasoning : String
  probable_cause : String
deriving Repr, DecidableEq

/-- The optional `performance` object of the webhook payload. -/
structure PerformancePayload where
  current_ms : ℚ
  avg_ms : Option ℚ
  deviation_percent : Option ℚ
  is_critical_spike : Bool
deriving Repr, DecidableEq

/-- The optional `schema_drift` object of the webhook payload. -/
structure DriftPayload where
  total_differences : Nat
deriving Repr, DecidableEq

/-- The webhook payload built by `build_alert_payload` (`alerts/payload.py`),
with the JSON object flattened into a structure.  Optional keys are `Option`
fields: `none` means the key is absent from the payload dict. -/
structure AlertPayload where
  event : String
  timestamp : String
  endpoint_id : String
  endpoint_name : String
  endpoint_url : String
  endpoint_method : String
  run_id : String
  run_status_code : Option ℤ
  run_response_time_ms : Option ℚ
  run_is_success : Bool
  run_error_message : Option String
  risk_score : ℚ
  risk_level : String
  breakdown_status : ℚ
  breakdown_performance : ℚ
  breakdown_drift : ℚ
  breakdown_ai : ℚ
  breakdown_history : ℚ
  anomaly : Option AnomalyPayload
  performance : Option PerformancePayload
  schema_drift : Option DriftPayload
deriving Repr

/-- `build_alert_payload` from `alerts/payload.py`.  `now` stands for
`datetime.now(timezone.utc).isoformat()`. -/
def build_alert_payload (now : String) (pipeline : RunnerService.PipelineResult)
    (endpoint_name endpoint_url endpoint_method : String) : AlertPayload :=
  let run := pipeline.run
  let anomaly := pipeline.anomaly
  let perf := pipeline.performance
  let drift := pipeline.schema_drift
  { event := "sentinel_alert",
    timestamp := now,
    endpoint_id := run.endpoint_id,
    endpoint_name := endpoint_name,
    endpoint_url := endpoint_url,
    endpoint_method := endpoint_method,
    run_id := run.id,
    run_status_code := run.status_code,
    run_response_time_ms := run.response_time_ms,
    run_is_success := run.is_success,
    run_error_message := run.error_message,
    risk_score := match pipeline.risk with
      | some r => r.calculated_score
      | none => 0,
    risk_level := match pipeline.risk with
      | some r => r.risk_level
      | none => "LOW",
    breakdown_status := match pipeline.risk with
      | some r => r.status_score
      | none => 0,
    breakdown_performance := match pipeline.risk with
      | some r => r.performance_score
      | none => 0,
    breakdown_drift := match pipeline.risk with
      | some r => r.drift_score
      | none => 0,
    breakdown_ai := match pipeline.risk with
      | some r => r.ai_score
      | none => 0,
    breakdown_history := match pipeline.risk with
      | some r => r.history_score
      | none => 0,
    anomaly := match anomaly with
      | some a =>
        if a.ai_called && a.anomaly_detected then
          some { severity_score := a.severity_score,
                 reasoning := a.reasoning,
                 probable_cause := a.probable_cause }
        else none
      | none => none,
    performance := match perf with
      | some p =>
        if p.is_spike then
          some { current_ms := p.current_time_ms,
                 avg_ms := p.rolling_avg_ms,
                 deviation_percent := p.deviation_percent,
                 is_critical_spike := p.is_critical_spike }
        else none
      | none => none,
    schema_drift := match drift with
      | some d =>
        if d.has_drift then some { total_differences := d.drift_count }
        else none
      | none => none }

end Alerts

namespace Scheduler

/-- The fields of an `ApiEndpoint` used by `sync_jobs`. -/
structure Endpoint where
  id : String
  name : String
  monitoring_interval_seconds : ℤ
deriving Repr, DecidableEq

/-- An APScheduler job as observed by `sync_jobs`: its id, its display name
and its trigger interval in seconds. -/
structure Job where
  id : String
  name : String
  interval_seconds : ℤ
deriving Repr, DecidableEq

/-- The summary dict returned by `sync_jobs` (status string omitted). -/
structure SyncReport where
  total_jobs : Nat
  added : Nat
  updated : Nat
  removed : Nat
deriving Repr, DecidableEq

/-- `f"monitor_{ep.id}"`. -/
def jobIdOf (e : Endpoint) : String := "monitor_" ++ e.id

/-- Insertion into a Python dict modelled as an association list: an
existing key's value is replaced in place, a new key is appended. -/
def dictInsert (m : List (String × Endpoint)) (k : String) (v : Endpoint) :
    List (String × Endpoint) :=
  if m.any (fun p => p.1 == k) then
    m.map (fun p => if p.1 == k then (k, v) else p)
  else m ++ [(k, v)]

/-- The `desired` dict of `sync_jobs`: `job_id → endpoint` in endpoint
order (the source keeps `desired` and `endpoint_map` keyed identically; the
interval is read off the endpoint). -/
def buildDesired (endpoints : List Endpoint) : List (String × Endpoint) :=
  endpoints.foldl (fun m e => dictInsert m (jobIdOf e) e) []

/-- The add-or-update loop of `sync_jobs` over the `desired` entries:
returns the final job list and the `(added, updated)` counters.
`existing_ids` is the job-id set captured before the removal loop, exactly
as in the source. -/
def syncLoop (existing_ids : List String) :
    List (String × Endpoint) → List Job → List Job × Nat × Nat
  | [], st => (st, 0, 0)
  | (jid, ep) :: rest, st =>
    if existing_ids.contains jid then
      match st.find? (fun j => j.id == jid) with
      | some j =>
        if j.interval_seconds ≠ ep.monitoring_interval_seconds then
          -- reschedule_job
          let st' := st.map (fun j' =>
            if j'.id == jid then
              { j' with interval_seconds := ep.monitoring_interval_seconds }
            else j')
          let r := syncLoop existing_ids rest st'
          (r.1, r.2.1, r.2.2 + 1)
        else syncLoop existing_ids rest st
      | none => syncLoop existing_ids rest st
    else
      -- add_job
      let st' := st ++ [{ id := jid, name := "Monitor: " ++ ep.name,
                          interval_seconds := ep.monitoring_interval_seconds }]
      let r := syncLoop existing_ids rest st'
      (r.1, r.2.1 + 1, r.2.2)

/-- `MonitorScheduler.sync_jobs` on a running scheduler, as a pure function
of the current job list and the repository's endpoints: returns the summary
report and the new job list. -/
def sync_jobs (jobs : List Job) (endpoints : List Endpoint) :
    SyncReport × List Job :=
  let desired := buildDesired endpoints
  let existing_ids := jobs.map Job.id
  let kept := jobs.filter (fun j => desired.any (fun p => p.1 == j.id))
  let removed := (jobs.filter (fun j => !(desired.any (fun p => p.1 == j.id)))).length
  let r := syncLoop existing_ids desired kept
  ({ total_jobs := desired.length, added := r.2.1, updated := r.2.2,
     removed := removed }, r.1)

end Scheduler

/-! ## Helper lemmas -/

theorem roundHalfEven_mono {a b : ℚ} (h : a ≤ b) :
    roundHalfEven a ≤ roundHalfEven b := by
  unfold roundHalfEven
  have hf : ⌊a⌋ ≤ ⌊b⌋ := Int.floor_le_floor h
  rcases eq_or_lt_of_le hf with heq | hlt
  · have hq : (⌊a⌋ : ℚ) = (⌊b⌋ : ℚ) := by exact_mod_cast heq
    have hr : a - ⌊a⌋ ≤ b - ⌊b⌋ := by linarith
    split_ifs <;> first | omega | linarith
  · split_ifs <;> omega

theorem pyRound1_mono {a b : ℚ} (h : a ≤ b) : pyRound1 a ≤ pyRound1 b := by
  unfold pyRound1
  have h10 : a * 10 ≤ b * 10 := by linarith
  have := roundHalfEven_mono h10
  have hcast : (roundHalfEven (a * 10) : ℚ) ≤ (roundHalfEven (b * 10) : ℚ) := by
    exact_mod_cast this
  have hpos : (0 : ℚ) < 10 := by norm_num
  exact (div_le_div_iff_of_pos_right hpos).mpr hcast

theorem pyRound2_mono {a b : ℚ} (h : a ≤ b) : pyRound2 a ≤ pyRound2 b := by
  unfold pyRound2
  have h100 : a * 100 ≤ b * 100 := by linarith
  have := roundHalfEven_mono h100
  have hcast : (roundHalfEven (a * 100) : ℚ) ≤ (roundHalfEven (b * 100) : ℚ) := by
    exact_mod_cast this
  have hpos : (0 : ℚ) < 100 := by norm_num
  exact (div_le_div_iff_of_pos_right hpos).mpr hcast

theorem pyRound1_zero : pyRound1 0 = 0 := by
  norm_num [pyRound1, roundHalfEven]

theorem pyRound1_hundred : pyRound1 100 = 100 := by
  norm_num [pyRound1, roundHalfEven]

theorem clamp_nonneg (v : ℚ) : 0 ≤ clamp v 0 100 := le_max_left 0 _

theorem clamp_le_hundred (v : ℚ) : clamp v 0 100 ≤ 100 :=
  max_le (by norm_num) (min_le_left _ _)

theorem clamp_mono (lo hi : ℚ) {v w : ℚ} (h : v ≤ w) :
    clamp v lo hi ≤ clamp w lo hi :=
  max_le_max le_rfl (min_le_min le_rfl h)

theorem pyRound1_clamp_bounds (t : ℚ) :
    0 ≤ pyRound1 (clamp t 0 100) ∧ pyRound1 (clamp t 0 100) ≤ 100 := by
  constructor
  · have h := pyRound1_mono (clamp_nonneg t)
    rwa [pyRound1_zero] at h
  · have h := pyRound1_mono (clamp_le_hundred t)
    rwa [pyRound1_hundred] at h

theorem classify_eq_bucketSpec (s : ℚ) :
    RiskEngine.classify s = RiskEngine.bucketSpec s := by
  unfold RiskEngine.classify RiskEngine.bucketSpec
  split_ifs <;> first | rfl | linarith

/-! ## C1 -/

/-- C1: for every combination of inputs (`is_success`, `performance`,
`drift`, `anomaly`, `failure_rate_percent`), `RiskEngine.score` returns a
`calculated_score` in `[0, 100]` and a `risk_level` equal to the bucket of
that score per the spec's table (`[0,25) → LOW`, `[25,50) → MEDIUM`,
`[50,75) → HIGH`, `[75,100] → CRITICAL`). -/
theorem risk_score_range_and_bucket (su : Bool)
    (p : Option PerformanceTracker.PerformanceResult)
    (d : Option SchemaValidator.DriftAnalysis)
    (a : Option AnomalyEngine.AnomalyResult) (fr : ℚ) :
    0 ≤ (RiskEngine.score su p d a fr).calculated_score ∧
    (RiskEngine.score su p d a fr).calculated_score ≤ 100 ∧
    (RiskEngine.score su p d a fr).risk_level =
      RiskEngine.bucketSpec (RiskEngine.score su p d a fr).calculated_score := by
  refine ⟨?_, ?_, ?_⟩
  · simp only [RiskEngine.score]
    exact (pyRound1_clamp_bounds _).1
  · simp only [RiskEngine.score]
    exact (pyRound1_clamp_bounds _).2
  · simp only [RiskEngine.score]
    exact classify_eq_bucketSpec _

/-! ## C5 -/

/-- C5 counterexample: with exactly two historical samples (fewer than 3),
the analyser does raise a spike flag and does report a deviation —
`analyse` only suppresses them below 2 samples. -/
theorem analyse_two_samples_raises_spike :
    ([100, 100] : List ℚ).length < 3 ∧
    (PerformanceTracker.analyseDefault 200 [100, 100]).is_spike = true ∧
    (PerformanceTracker.analyseDefault 200 [100, 100]).deviation_percent =
      some 100 := by
  have htake : ([100, 100] : List ℚ).take 20 = [100, 100] := rfl
  refine ⟨by norm_num, ?_, ?_⟩ <;>
    simp only [PerformanceTracker.analyseDefault, PerformanceTracker.analyse,
      htake] <;>
    norm_num [pyRound2, roundHalfEven]

/-- C5 amended: for every `current_ms` and every historical-times list with
fewer than **2** elements, the analyser raises no spike flag and reports no
deviation (with exactly 2 elements the statistics are computed and spikes
may be raised). -/
theorem analyse_small_sample_no_deviation (cur : ℚ) (hist : List ℚ)
    (h : hist.length < 2) :
    (PerformanceTracker.analyseDefault cur hist).is_spike = false ∧
    (PerformanceTracker.analyseDefault cur hist).is_critical_spike = false ∧
    (PerformanceTracker.analyseDefault cur hist).deviation_percent = none := by
  have hlen : (hist.take 20).length < 2 := by
    rw [List.length_take]; omega
  simp [PerformanceTracker.analyseDefault, PerformanceTracker.analyse, hlen, h]

theorem analyse_small_sample_no_deviation_witness :
    ([100] : List ℚ).length < 2 ∧
    ((PerformanceTracker.analyseDefault 42 [100]).is_spike = false ∧
     (PerformanceTracker.analyseDefault 42 [100]).is_critical_spike = false ∧
     (PerformanceTracker.analyseDefault 42 [100]).deviation_percent = none) :=
  ⟨by norm_num, analyse_small_sample_no_deviation 42 [100] (by norm_num)⟩

/-! ## C4 -/

theorem statusPart_fst (su : Bool) (st : Option ℤ) (es : ℤ) :
    (AnomalyEngine.statusPart su st es).1 =
      (if su then 0 else
        match st with
        | none => (60 : ℚ)
        | some s => if s ≥ 500 then 50 else if s ≥ 400 then 25 else 0) := by
  cases su <;> rcases st with _ | s <;>
    simp only [AnomalyEngine.statusPart, Bool.not_true, Bool.not_false,
      if_true, if_false] <;>
    split_ifs <;> first | rfl | contradiction

theorem errorPart_fst (em : Option String) :
    (AnomalyEngine.errorPart em).1 =
      (match em with
        | some e =>
          if e ≠ "" then
            if AnomalyEngine.strContains e.toLower "timeout" then (20 : ℚ)
            else if AnomalyEngine.strContains e.toLower "connection" then 30
            else 0
          else 0
        | none => 0) := by
  rcases em with _ | e <;> simp only [AnomalyEngine.errorPart] <;>
    split_ifs <;> first | rfl | contradiction

theorem perfPart_fst (p : Option PerformanceTracker.PerformanceResult) :
    (AnomalyEngine.perfPart p).1 =
      (match p with
        | some q =>
          if q.is_critical_spike then (35 : ℚ)
          else if q.is_spike then 20 else 0
        | none => 0) := by
  rcases p with _ | q <;> simp only [AnomalyEngine.perfPart] <;>
    split_ifs <;> first | rfl | contradiction

theorem driftPart_fst (d : Option SchemaValidator.DriftAnalysis) :
    (AnomalyEngine.driftPart d).1 =
      (match d with
        | some x =>
          if x.has_drift then (if x.drift_count ≥ 5 then (25 : ℚ) else 10)
          else 0
        | none => 0) := by
  rcases d with _ | x <;> simp only [AnomalyEngine.driftPart] <;>
    split_ifs <;> first | rfl | contradiction

theorem ratePart_fst (fr : ℚ) :
    (AnomalyEngine.ratePart fr).1 = if fr ≥ 30 then (15 : ℚ) else 0 := by
  simp only [AnomalyEngine.ratePart]
  split_ifs <;> first | rfl | contradiction

/-- C4 counterexample: at a failed run with observed status 503 (no error
message, no performance data, no drift, zero failure rate) the fallback
returns severity 50 — the "status ≥ 500" row only — whereas the sum of
*every* holding table condition (status ≥ 500 and status ≥ 400 on a failed
run) is 75. -/
theorem rule_based_severity_not_claim_sum :
    (AnomalyEngine.rule_based_analysis false none (some 503) 200 none none
      0).severity_score = 50 ∧
    AnomalyEngine.claimFallbackSeverity false none (some 503) none none
      0 = 75 ∧
    (AnomalyEngine.rule_based_analysis false none (some 503) 200 none none
      0).severity_score ≠
      AnomalyEngine.claimFallbackSeverity false none (some 503) none none 0 := by
  refine ⟨?_, ?_, ?_⟩ <;>
    norm_num [AnomalyEngine.rule_based_analysis, AnomalyEngine.statusPart,
      AnomalyEngine.errorPart, AnomalyEngine.perfPart,
      AnomalyEngine.driftPart, AnomalyEngine.ratePart,
      AnomalyEngine.claimFallbackSeverity, clamp, max_def, min_def]

/-- C4 amended: the fallback severity is the clamped sum of the rule table
read as exclusive branch groups — status (no-response 60, else `≥ 500` 50,
else `≥ 400` 25, on a failed run), error message (timeout 20, else
connection 30), spike (critical 35, else spike 20), drift (`≥ 5` 25, else
1–4 10), failure rate (`≥ 30%` 15) — with `anomaly_detected ⇔ severity ≥
20`, confidence 0.6 when detected and 0.8 when not, `used_fallback = true`
and `ai_called = false`. -/
theorem rule_based_analysis_spec (su : Bool) (em : Option String)
    (st : Option ℤ) (es : ℤ)
    (p : Option PerformanceTracker.PerformanceResult)
    (dr : Option SchemaValidator.DriftAnalysis) (fr : ℚ) :
    (AnomalyEngine.rule_based_analysis su em st es p dr fr).severity_score =
      AnomalyEngine.amendedFallbackSeverity su em st p dr fr ∧
    (AnomalyEngine.rule_based_analysis su em st es p dr fr).anomaly_detected =
      decide ((AnomalyEngine.rule_based_analysis su em st es p dr
        fr).severity_score ≥ 20) ∧
    (AnomalyEngine.rule_based_analysis su em st es p dr fr).confidence =
      (if (AnomalyEngine.rule_based_analysis su em st es p dr
        fr).anomaly_detected then 6/10 else 8/10) ∧
    (AnomalyEngine.rule_based_analysis su em st es p dr fr).used_fallback =
      true ∧
    (AnomalyEngine.rule_based_analysis su em st es p dr fr).ai_called =
      false := by
  refine ⟨?_, rfl, ?_, rfl, rfl⟩
  · simp only [AnomalyEngine.rule_based_analysis,
      AnomalyEngine.amendedFallbackSeverity, statusPart_fst, errorPart_fst,
      perfPart_fst, driftPart_fst, ratePart_fst]
  · simp only [AnomalyEngine.rule_based_analysis]
    split_ifs <;> simp_all <;> linarith

theorem rule_based_analysis_spec_witness :
    (AnomalyEngine.rule_based_analysis false none (some 503) 200 none none
      0).severity_score =
      AnomalyEngine.amendedFallbackSeverity false none (some 503) none none
        0 ∧
    (AnomalyEngine.rule_based_analysis false none (some 503) 200 none none
      0).anomaly_detected =
      decide ((AnomalyEngine.rule_based_analysis false none (some 503) 200
        none none 0).severity_score ≥ 20) ∧
    (AnomalyEngine.rule_based_analysis false none (some 503) 200 none none
      0).confidence =
      (if (AnomalyEngine.rule_based_analysis false none (some 503) 200 none
        none 0).anomaly_detected then 6/10 else 8/10) ∧
    (AnomalyEngine.rule_based_analysis false none (some 503) 200 none none
      0).used_fallback = true ∧
    (AnomalyEngine.rule_based_analysis false none (some 503) 200 none none
      0).ai_called = false :=
  rule_based_analysis_spec false none (some 503) 200 none none 0

/-! ## C7 -/

/-- C7: evaluation at the failing input.  The fallback classifier reports
`confidence = 0.6`, `used_fallback = true` and a concrete recommendation,
but the `Anomaly` row built by `execute_endpoint` keeps the column defaults
(`confidence = 0`, `recommendation = NULL`, `ai_called = false`,
`used_fallback = false`). -/
theorem anomaly_row_keeps_column_defaults :
    (AnomalyEngine.rule_based_analysis false none (some 503) 200 none none
      0).anomaly_detected = true ∧
    (AnomalyEngine.rule_based_analysis false none (some 503) 200 none none
      0).confidence = 6/10 ∧
    (AnomalyEngine.rule_based_analysis false none (some 503) 200 none none
      0).used_fallback = true ∧
    (AnomalyEngine.rule_based_analysis false none (some 503) 200 none none
      0).recommendation = "Check server logs and health status" ∧
    (RunnerService.persistAnomalyRecord "run-1"
      (AnomalyEngine.rule_based_analysis false none (some 503) 200 none none
        0)).confidence = 0 ∧
    (RunnerService.persistAnomalyRecord "run-1"
      (AnomalyEngine.rule_based_analysis false none (some 503) 200 none none
        0)).recommendation = none ∧
    (RunnerService.persistAnomalyRecord "run-1"
      (AnomalyEngine.rule_based_analysis false none (some 503) 200 none none
        0)).ai_called = false ∧
    (RunnerService.persistAnomalyRecord "run-1"
      (AnomalyEngine.rule_based_analysis false none (some 503) 200 none none
        0)).used_fallback = false := by
  refine ⟨?_, ?_, rfl, rfl, rfl, rfl, rfl, rfl⟩ <;>
    norm_num [AnomalyEngine.rule_based_analysis, AnomalyEngine.statusPart,
      AnomalyEngine.errorPart, AnomalyEngine.perfPart,
      AnomalyEngine.driftPart, AnomalyEngine.ratePart, clamp, max_def,
      min_def]

/-! ## C6 -/

/-- C6 counterexample: the status-mismatch scenario (503 observed, 200
expected, no body) with a fallback-detected anomaly — the dispatched
payload does *not* contain an `anomaly` object, because
`build_alert_payload` attaches it only when `ai_called` holds, and the
fallback sets `ai_called = false`. -/
theorem payload_scenario_omits_anomaly :
    (AnomalyEngine.rule_based_analysis false none (some 503) 200
      (some (PerformanceTracker.analyseDefault 120 []))
      (some (⟨none, some "No response body to compare"⟩ : SchemaValidator.DriftAnalysis))
      0).anomaly_detected = true ∧
    (AnomalyEngine.rule_based_analysis false none (some 503) 200
      (some (PerformanceTracker.analyseDefault 120 []))
      (some (⟨none, some "No response body to compare"⟩ : SchemaValidator.DriftAnalysis))
      0).used_fallback = true ∧
    (Alerts.build_alert_payload "2026-01-01T00:00:00+00:00"
      { run := { id := "run-1", endpoint_id := "ep-1",
                 status_code := some 503, response_time_ms := some 120,
                 is_success := false, error_message := none },
        performance := some (PerformanceTracker.analyseDefault 120 []),
        schema_drift := some (⟨none, some "No response body to compare"⟩ : SchemaValidator.DriftAnalysis),
        anomaly := some (AnomalyEngine.rule_based_analysis false none
          (some 503) 200 (some (PerformanceTracker.analyseDefault 120 []))
          (some (⟨none, some "No response body to compare"⟩ : SchemaValidator.DriftAnalysis)) 0),
        risk := none }
      "api" "https://api.test" "GET").anomaly = none := by
  refine ⟨?_, rfl, ?_⟩
  · norm_num [AnomalyEngine.rule_based_analysis, AnomalyEngine.statusPart,
      AnomalyEngine.errorPart, AnomalyEngine.perfPart,
      AnomalyEngine.driftPart, AnomalyEngine.ratePart,
      PerformanceTracker.analyseDefault, PerformanceTracker.analyse,
      SchemaValidator.DriftAnalysis.has_drift, clamp, max_def, min_def]
  · simp [Alerts.build_alert_payload, AnomalyEngine.rule_based_analysis]

/-- C6 amended: the payload attaches `anomaly` only for AI-attributed
anomalies (`ai_called ∧ anomaly_detected`); when the fallback path produced
the anomaly (`used_fallback`, `ai_called = false`) the `anomaly` key is
omitted even though the anomaly was detected, and `performance` /
`schema_drift` are omitted when there is no spike and no drift. -/
theorem payload_for_fallback_anomaly (now : String)
    (pl : RunnerService.PipelineResult) (n u m : String)
    (a : AnomalyEngine.AnomalyResult)
    (ha : pl.anomaly = some a) (hfb : a.used_fallback = true)
    (hnoai : a.ai_called = false) (hdet : a.anomaly_detected = true)
    (hfail : pl.run.is_success = false) :
    (Alerts.build_alert_payload now pl n u m).anomaly = none ∧
    (∀ p, pl.performance = some p → p.is_spike = false →
      (Alerts.build_alert_payload now pl n u m).performance = none) ∧
    (pl.performance = none →
      (Alerts.build_alert_payload now pl n u m).performance = none) ∧
    (∀ d, pl.schema_drift = some d → d.has_drift = false →
      (Alerts.build_alert_payload now pl n u m).schema_drift = none) ∧
    (pl.schema_drift = none →
      (Alerts.build_alert_payload now pl n u m).schema_drift = none) := by
  refine ⟨?_, ?_, ?_, ?_, ?_⟩
  · simp [Alerts.build_alert_payload, ha, hnoai]
  · intro p hp hs
    simp [Alerts.build_alert_payload, hp, hs]
  · intro hp
    simp [Alerts.build_alert_payload, hp]
  · intro d hd hh
    simp [Alerts.build_alert_payload, hd, hh]
  · intro hd
    simp [Alerts.build_alert_payload, hd]

theorem payload_for_fallback_anomaly_witness :
    (Alerts.build_alert_payload "2026-01-01T00:00:00+00:00"
      { run := { id := "run-1", endpoint_id := "ep-1",
                 status_code := some 503, response_time_ms := some 120,
                 is_success := false, error_message := none },
        performance := none,
        schema_drift := none,
        anomaly := some (AnomalyEngine.rule_based_analysis false none
          (some 503) 200 none none 0),
        risk := none }
      "api" "https://api.test" "GET").anomaly = none ∧
    (∀ p, (RunnerService.PipelineResult.performance
      { run := { id := "run-1", endpoint_id := "ep-1",
                 status_code := some 503, response_time_ms := some 120,
                 is_success := false, error_message := none },
        performance := none,
        schema_drift := none,
        anomaly := some (AnomalyEngine.rule_based_analysis false none
          (some 503) 200 none none 0),
        risk := none }) = some p → p.is_spike = false →
      (Alerts.build_alert_payload "2026-01-01T00:00:00+00:00"
        { run := { id := "run-1", endpoint_id := "ep-1",
                   status_code := some 503, response_time_ms := some 120,
                   is_success := false, error_message := none },
          performance := none,
          schema_drift := none,
          anomaly := some (AnomalyEngine.rule_based_analysis false none
            (some 503) 200 none none 0),
          risk := none }
        "api" "https://api.test" "GET").performance = none) ∧
    ((RunnerService.PipelineResult.performance
      { run := { id := "run-1", endpoint_id := "ep-1",
                 status_code := some 503, response_time_ms := some 120,
                 is_success := false, error_message := none },
        performance := none,
        schema_drift := none,
        anomaly := some (AnomalyEngine.rule_based_analysis false none
          (some 503) 200 none none 0),
        risk := none }) = none →
      (Alerts.build_alert_payload "2026-01-01T00:00:00+00:00"
        { run := { id := "run-1", endpoint_id := "ep-1",
                   status_code := some 503, response_time_ms := some 120,
                   is_success := false, error_message := none },
          performance := none,
          schema_drift := none,
          anomaly := some (AnomalyEngine.rule_based_analysis false none
            (some 503) 200 none none 0),
          risk := none }
        "api" "https://api.test" "GET").performance = none) ∧
    (∀ d, (RunnerService.PipelineResult.schema_drift
      { run := { id := "run-1", endpoint_id := "ep-1",
                 status_code := some 503, response_time_ms := some 120,
                 is_success := false, error_message := none },
        performance := none,
        schema_drift := none,
        anomaly := some (AnomalyEngine.rule_based_analysis false none
          (some 503) 200 none none 0),
        risk := none }) = some d → d.has_drift = false →
      (Alerts.build_alert_payload "2026-01-01T00:00:00+00:00"
        { run := { id := "run-1", endpoint_id := "ep-1",
                   status_code := some 503, response_time_ms := some 120,
                   is_success := false, error_message := none },
          performance := none,
          schema_drift := none,
          anomaly := some (AnomalyEngine.rule_based_analysis false none
            (some 503) 200 none none 0),
          risk := none }
        "api" "https://api.test" "GET").schema_drift = none) ∧
    ((RunnerService.PipelineResult.schema_drift
      { run := { id := "run-1", endpoint_id := "ep-1",
                 status_code := some 503, response_time_ms := some 120,
                 is_success := false, error_message := none },
        performance := none,
        schema_drift := none,
        anomaly := some (AnomalyEngine.rule_based_analysis false none
          (some 503) 200 none none 0),
        risk := none }) = none →
      (Alerts.build_alert_payload "2026-01-01T00:00:00+00:00"
        { run := { id := "run-1", endpoint_id := "ep-1",
                   status_code := some 503, response_time_ms := some 120,
                   is_success := false, error_message := none },
          performance := none,
          schema_drift := none,
          anomaly := some (AnomalyEngine.rule_based_analysis false none
            (some 503) 200 none none 0),
          risk := none }
        "api" "https://api.test" "GET").schema_drift = none) :=
  payload_for_fallback_anomaly "2026-01-01T00:00:00+00:00"
    { run := { id := "run-1", endpoint_id := "ep-1",
               status_code := some 503, response_time_ms := some 120,
               is_success := false, error_message := none },
      performance := none,
      schema_drift := none,
      anomaly := some (AnomalyEngine.rule_based_analysis false none
        (some 503) 200 none none 0),
      risk := none }
    "api" "https://api.test" "GET"
    (AnomalyEngine.rule_based_analysis false none (some 503) 200 none none 0)
    rfl rfl rfl
    (by norm_num [AnomalyEngine.rule_based_analysis,
      AnomalyEngine.statusPart, AnomalyEngine.errorPart,
      AnomalyEngine.perfPart, AnomalyEngine.driftPart,
      AnomalyEngine.ratePart, clamp, max_def, min_def])
    rfl

/-! ## C3 -/

theorem single_attempt_success_isSome (es : ℤ) (tmo : ℚ)
    (o : ApiRunner.AttemptOutcome) :
    (ApiRunner.single_attempt es tmo o).is_success = true →
    (ApiRunner.single_attempt es tmo o).status_code.isSome = true := by
  cases o <;> simp [ApiRunner.single_attempt]

/-- One-step characterisation of the retry loop: if the attempts before
`attempt + d` observed no status and attempt `attempt + d` observes one,
the loop stops there, having slept `backoff * i` after each earlier
attempt `i`. -/
theorem executeAux_first_status (es : ℤ) (tmo backoff : ℚ)
    (attemptOf : Nat → ApiRunner.AttemptOutcome) (s : ℤ) :
    ∀ (d attempt remaining : Nat), 1 + d ≤ remaining →
    (∀ i, attempt ≤ i → i < attempt + d →
      (ApiRunner.single_attempt es tmo (attemptOf i)).status_code = none) →
    (ApiRunner.single_attempt es tmo
      (attemptOf (attempt + d))).status_code = some s →
    ApiRunner.executeAux es tmo backoff attemptOf remaining attempt =
      ⟨ApiRunner.single_attempt es tmo (attemptOf (attempt + d)), attempt + d,
       (List.range d).map (fun i => backoff * ((attempt + i : Nat) : ℚ))⟩ := by
  intro d
  induction d with
  | zero =>
    intro attempt remaining _ _ hs
    rw [Nat.add_zero] at hs ⊢
    have hss : (ApiRunner.single_attempt es tmo
        (attemptOf attempt)).status_code.isSome = true := by
      rw [hs]; rfl
    unfold ApiRunner.executeAux
    simp [hss]
  | succ d ih =>
    intro attempt remaining hrem hb hs
    have h0 : (ApiRunner.single_attempt es tmo
        (attemptOf attempt)).status_code = none :=
      hb attempt le_rfl (by omega)
    have hns : (ApiRunner.single_attempt es tmo
        (attemptOf attempt)).is_success = false := by
      cases h : (ApiRunner.single_attempt es tmo (attemptOf attempt)).is_success
      · rfl
      · have := single_attempt_success_isSome es tmo (attemptOf attempt) h
        rw [h0] at this
        simp at this
    obtain ⟨n, rfl⟩ : ∃ n, remaining = n + 2 := ⟨remaining - 2, by omega⟩
    have hstep := ih (attempt + 1) (n + 1) (by omega)
      (fun i h1 h2 => hb i (by omega) (by omega))
      (by
        have : attempt + 1 + d = attempt + (d + 1) := by omega
        rw [this]; exact hs)
    unfold ApiRunner.executeAux
    simp only [hns, h0, Option.isSome_none, Bool.or_self, Bool.false_eq_true,
      if_false]
    rw [hstep]
    have harith : attempt + 1 + d = attempt + (d + 1) := by omega
    have hsleeps : (backoff * (attempt : ℚ)) ::
        (List.range d).map (fun i => backoff * ((attempt + 1 + i : Nat) : ℚ)) =
        (List.range (d + 1)).map
          (fun i => backoff * ((attempt + i : Nat) : ℚ)) := by
      rw [List.range_succ_eq_map, List.map_cons, List.map_map]
      refine congrArg₂ List.cons (by push_cast; ring) ?_
      refine List.map_congr_left (fun i _ => ?_)
      simp only [Function.comp, Nat.succ_eq_add_one]
      push_cast
      ring
    rw [harith, hsleeps]

/-- C3: if the first `j - 1` attempts observe no HTTP status (transport
failures) and attempt `j ≤ max_retries` observes one, `execute` returns
attempt `j`'s result (status populated) after exactly `j` attempts, having
slept `backoff × i` after each attempt `i < j`; retries happen only while
no status was observed. -/
theorem execute_returns_first_observed_status (es : ℤ) (tmo backoff : ℚ)
    (attemptOf : Nat → ApiRunner.AttemptOutcome) (max_retries j : Nat)
    (s : ℤ) (hj1 : 1 ≤ j) (hjm : j ≤ max_retries)
    (hbefore : ∀ i, 1 ≤ i → i < j →
      (ApiRunner.single_attempt es tmo (attemptOf i)).status_code = none)
    (hat : (ApiRunner.single_attempt es tmo (attemptOf j)).status_code =
      some s) :
    ApiRunner.execute es tmo max_retries backoff attemptOf =
      some ⟨ApiRunner.single_attempt es tmo (attemptOf j), j,
        (List.range (j - 1)).map (fun i => backoff * ((1 + i : Nat) : ℚ))⟩ := by
  obtain ⟨n, rfl⟩ : ∃ n, max_retries = n + 1 := ⟨max_retries - 1, by omega⟩
  simp only [ApiRunner.execute]
  have hd : j = 1 + (j - 1) := by omega
  rw [executeAux_first_status es tmo backoff attemptOf s (j - 1) 1 (n + 1)
    (by omega) (fun i h1 h2 => hbefore i h1 (by omega))
    (by rw [← hd]; exact hat)]
  rw [← hd]

theorem execute_returns_first_observed_status_witness :
    ApiRunner.execute 200 30 3 1
      (fun n => if n = 1 then .timeout 30000 "t"
                else .response 503 120 none) =
      some ⟨ApiRunner.single_attempt 200 30 (.response 503 120 none), 2,
        [1]⟩ := by
  have h := execute_returns_first_observed_status 200 30 1
    (fun n => if n = 1 then .timeout 30000 "t" else .response 503 120 none)
    3 2 503 (by norm_num) (by norm_num)
    (fun i h1 h2 => by
      have hi : i = 1 := by omega
      subst hi
      rfl)
    rfl
  rw [h]
  norm_num [List.range_succ]

/-! ## C10 -/

/-- C10: a timed-out attempt yields a result with no status code, an error
message, and a response time equal to the measured elapsed time (rounded to
two decimals as in the source); the other transport errors (connect, other
HTTP transport error, unexpected) carry no response time. -/
theorem single_attempt_timeout_carries_time (es : ℤ) (tmo t : ℚ)
    (msg : String) :
    ((ApiRunner.single_attempt es tmo (.timeout t msg)).status_code = none ∧
     (ApiRunner.single_attempt es tmo (.timeout t msg)).response_time_ms =
       some (pyRound2 t) ∧
     (ApiRunner.single_attempt es tmo (.timeout t msg)).error_message.isSome =
       true) ∧
    ((ApiRunner.single_attempt es tmo (.connectError msg)).status_code =
       none ∧
     (ApiRunner.single_attempt es tmo (.connectError msg)).response_time_ms =
       none ∧
     (ApiRunner.single_attempt es tmo
       (.connectError msg)).error_message.isSome = true) ∧
    ((ApiRunner.single_attempt es tmo (.httpError msg)).status_code = none ∧
     (ApiRunner.single_attempt es tmo (.httpError msg)).response_time_ms =
       none ∧
     (ApiRunner.single_attempt es tmo (.httpError msg)).error_message.isSome =
       true) ∧
    ((ApiRunner.single_attempt es tmo (.unexpected msg)).status_code = none ∧
     (ApiRunner.single_attempt es tmo (.unexpected msg)).response_time_ms =
       none ∧
     (ApiRunner.single_attempt es tmo
       (.unexpected msg)).error_message.isSome = true) :=
  ⟨⟨rfl, rfl, rfl⟩, ⟨rfl, rfl, rfl⟩, ⟨rfl, rfl, rfl⟩, ⟨rfl, rfl, rfl⟩⟩

/-! ## C8 -/

theorem pyRound1_clamp_mono {x y : ℚ} (h : x ≤ y) :
    pyRound1 (clamp x 0 100) ≤ pyRound1 (clamp y 0 100) :=
  pyRound1_mono (clamp_mono 0 100 h)

theorem ai_component_update_mono (a : AnomalyEngine.AnomalyResult)
    {s1 s2 : ℚ} (h : s1 ≤ s2) :
    RiskEngine.ai_component (some { a with severity_score := s1 }) ≤
    RiskEngine.ai_component (some { a with severity_score := s2 }) := by
  simp only [RiskEngine.ai_component]
  split_ifs
  · have : (0 : ℚ) < 100 := by norm_num
    rw [RiskEngine.W_AI]
    have h100 : s1 / 100 ≤ s2 / 100 := by linarith
    nlinarith
  · exact le_rfl

theorem performance_component_update_mono
    (pp : PerformanceTracker.PerformanceResult) {d1 d2 : ℚ}
    (h1 : 0 < d1) (h : d1 ≤ d2) :
    RiskEngine.performance_component
      (some { pp with deviation_percent := some d1 }) ≤
    RiskEngine.performance_component
      (some { pp with deviation_percent := some d2 }) := by
  have h2 : 0 < d2 := lt_of_lt_of_le h1 h
  simp only [RiskEngine.performance_component]
  split_ifs <;> first
    | exact le_rfl
    | (exfalso; simp_all; linarith)
    | (have habs : |d1| / RiskEngine.PERF_MAX_DEVIATION ≤
             |d2| / RiskEngine.PERF_MAX_DEVIATION := by
         rw [abs_of_pos h1, abs_of_pos h2, RiskEngine.PERF_MAX_DEVIATION]
         linarith
       have hcl := clamp_mono 0 1 habs
       have : (0 : ℚ) ≤ RiskEngine.W_PERFORMANCE := by
         rw [RiskEngine.W_PERFORMANCE]; norm_num
       exact mul_le_mul_of_nonneg_right hcl this)

theorem drift_component_update_mono (sk : Option String)
    (sd : SchemaDiff.SchemaDiffResult) {c1 c2 : Nat} (h : c1 ≤ c2) :
    RiskEngine.drift_component
      (some ⟨some { sd with total_differences := c1 }, sk⟩) ≤
    RiskEngine.drift_component
      (some ⟨some { sd with total_differences := c2 }, sk⟩) := by
  simp only [RiskEngine.drift_component, SchemaValidator.DriftAnalysis.has_drift,
    SchemaValidator.DriftAnalysis.drift_count]
  split_ifs
  · have hc : ((c1 : ℚ)) / RiskEngine.DRIFT_MAX_DIFFS ≤
        ((c2 : ℚ)) / RiskEngine.DRIFT_MAX_DIFFS := by
      rw [RiskEngine.DRIFT_MAX_DIFFS]
      have : (c1 : ℚ) ≤ (c2 : ℚ) := by exact_mod_cast h
      linarith
    have hcl := clamp_mono 0 1 hc
    have hw : (0 : ℚ) ≤ RiskEngine.W_DRIFT := by
      rw [RiskEngine.W_DRIFT]; norm_num
    exact mul_le_mul_of_nonneg_right hcl hw
  · exact le_rfl

theorem history_component_mono {r1 r2 : ℚ} (h : r1 ≤ r2) :
    RiskEngine.history_component r1 ≤ RiskEngine.history_component r2 := by
  simp only [RiskEngine.history_component]
  split_ifs with h1 h2
  · have hc : r1 / RiskEngine.HISTORY_MAX_RATE ≤
        r2 / RiskEngine.HISTORY_MAX_RATE := by
      rw [RiskEngine.HISTORY_MAX_RATE]; linarith
    have hcl := clamp_mono 0 1 hc
    have hw : (0 : ℚ) ≤ RiskEngine.W_HISTORY := by
      rw [RiskEngine.W_HISTORY]; norm_num
    exact mul_le_mul_of_nonneg_right hcl hw
  · exact absurd (lt_of_lt_of_le h1 h) h2
  · have hcl : (0 : ℚ) ≤ clamp (r2 / RiskEngine.HISTORY_MAX_RATE) 0 1 :=
      le_max_left 0 _
    have hw : (0 : ℚ) ≤ RiskEngine.W_HISTORY := by
      rw [RiskEngine.W_HISTORY]; norm_num
    exact mul_nonneg hcl hw
  · exact le_rfl

/-- C8: holding all other inputs of `RiskEngine.score` fixed, increasing
the anomaly `severity_score`, increasing a positive `deviation_percent`,
increasing the drift diff count, or increasing `failure_rate_percent`
never decreases `calculated_score`. -/
theorem risk_score_monotone :
    (∀ (su : Bool) (p : Option PerformanceTracker.PerformanceResult)
       (d : Option SchemaValidator.DriftAnalysis)
       (a : AnomalyEngine.AnomalyResult) (fr s1 s2 : ℚ), s1 ≤ s2 →
      (RiskEngine.score su p d (some { a with severity_score := s1 })
        fr).calculated_score ≤
      (RiskEngine.score su p d (some { a with severity_score := s2 })
        fr).calculated_score) ∧
    (∀ (su : Bool) (pp : PerformanceTracker.PerformanceResult)
       (d : Option SchemaValidator.DriftAnalysis)
       (a : Option AnomalyEngine.AnomalyResult) (fr d1 d2 : ℚ),
       0 < d1 → d1 ≤ d2 →
      (RiskEngine.score su (some { pp with deviation_percent := some d1 })
        d a fr).calculated_score ≤
      (RiskEngine.score su (some { pp with deviation_percent := some d2 })
        d a fr).calculated_score) ∧
    (∀ (su : Bool) (p : Option PerformanceTracker.PerformanceResult)
       (sk : Option String) (sd : SchemaDiff.SchemaDiffResult)
       (a : Option AnomalyEngine.AnomalyResult) (fr : ℚ) (c1 c2 : Nat),
       c1 ≤ c2 →
      (RiskEngine.score su p
        (some ⟨some { sd with total_differences := c1 }, sk⟩) a
        fr).calculated_score ≤
      (RiskEngine.score su p
        (some ⟨some { sd with total_differences := c2 }, sk⟩) a
        fr).calculated_score) ∧
    (∀ (su : Bool) (p : Option PerformanceTracker.PerformanceResult)
       (d : Option SchemaValidator.DriftAnalysis)
       (a : Option AnomalyEngine.AnomalyResult) (r1 r2 : ℚ), r1 ≤ r2 →
      (RiskEngine.score su p d a r1).calculated_score ≤
      (RiskEngine.score su p d a r2).calculated_score) := by
  refine ⟨?_, ?_, ?_, ?_⟩
  · intro su p d a fr s1 s2 h
    simp only [RiskEngine.score]
    refine pyRound1_clamp_mono ?_
    have := ai_component_update_mono a h
    linarith
  · intro su pp d a fr d1 d2 h1 h
    simp only [RiskEngine.score]
    refine pyRound1_clamp_mono ?_
    have := performance_component_update_mono pp h1 h
    linarith
  · intro su p sk sd a fr c1 c2 h
    simp only [RiskEngine.score]
    refine pyRound1_clamp_mono ?_
    have := drift_component_update_mono sk sd h
    linarith
  · intro su p d a r1 r2 h
    simp only [RiskEngine.score]
    refine pyRound1_clamp_mono ?_
    have := history_component_mono h
    linarith

theorem risk_score_monotone_witness :
    ((RiskEngine.score false none none
      (some { AnomalyEngine.rule_based_analysis false none (some 503) 200
        none none 0 with severity_score := 40 }) 0).calculated_score ≤
     (RiskEngine.score false none none
      (some { AnomalyEngine.rule_based_analysis false none (some 503) 200
        none none 0 with severity_score := 60 }) 0).calculated_score) ∧
    ((RiskEngine.score false
      (some { (PerformanceTracker.analyseDefault 200 [100, 100]) with
        deviation_percent := some 80 }) none none 0).calculated_score ≤
     (RiskEngine.score false
      (some { (PerformanceTracker.analyseDefault 200 [100, 100]) with
        deviation_percent := some 90 }) none none 0).calculated_score) ∧
    ((RiskEngine.score false none
      (some ⟨some { SchemaDiff.compute_diff [] [] with
        total_differences := 2 }, none⟩) none 0).calculated_score ≤
     (RiskEngine.score false none
      (some ⟨some { SchemaDiff.compute_diff [] [] with
        total_differences := 7 }, none⟩) none 0).calculated_score) ∧
    ((RiskEngine.score false none none none 10).calculated_score ≤
     (RiskEngine.score false none none none 40).calculated_score) :=
  ⟨risk_score_monotone.1 false none none
      (AnomalyEngine.rule_based_analysis false none (some 503) 200 none none
        0) 0 40 60 (by norm_num),
   risk_score_monotone.2.1 false
      (PerformanceTracker.analyseDefault 200 [100, 100]) none none 0 80 90
      (by norm_num) (by norm_num),
   risk_score_monotone.2.2.1 false none none (SchemaDiff.compute_diff [] [])
      none 0 2 7 (by norm_num),
   risk_score_monotone.2.2.2 false none none none 10 40 (by norm_num)⟩

/-! ## C9 -/

theorem anyKey_iff {α : Type} (l : List (String × α)) (k : String) :
    l.any (fun p => p.1 == k) = true ↔ k ∈ l.map Prod.fst := by
  simp only [List.any_eq_true, List.mem_map, beq_iff_eq]

theorem contains_iff_mem (l : List String) (a : String) :
    l.contains a = true ↔ a ∈ l := by
  simp only [List.contains_eq_any_beq, List.any_eq_true, beq_iff_eq]
  constructor
  · rintro ⟨x, hx, he⟩
    rwa [he]
  · intro h
    exact ⟨a, h, rfl⟩

theorem monitor_append_inj :
    Function.Injective (fun s => "monitor_" ++ s) := by
  intro a b h
  apply String.ext
  have hd := congrArg String.data h
  rw [String.data_append, String.data_append] at hd
  exact List.append_cancel_left hd

theorem map_jobIdOf_nodup {eps : List Scheduler.Endpoint}
    (h : (eps.map Scheduler.Endpoint.id).Nodup) :
    (eps.map Scheduler.jobIdOf).Nodup := by
  have he : eps.map Scheduler.jobIdOf =
      (eps.map Scheduler.Endpoint.id).map (fun s => "monitor_" ++ s) := by
    rw [List.map_map]
    rfl
  rw [he]
  exact h.map monitor_append_inj

theorem buildDesired_go (eps : List Scheduler.Endpoint) :
    ∀ acc : List (String × Scheduler.Endpoint),
    (eps.map Scheduler.jobIdOf).Nodup →
    (∀ e ∈ eps, Scheduler.jobIdOf e ∉ acc.map Prod.fst) →
    eps.foldl (fun m e => Scheduler.dictInsert m (Scheduler.jobIdOf e) e)
      acc = acc ++ eps.map (fun e => (Scheduler.jobIdOf e, e)) := by
  induction eps with
  | nil => intro acc _ _; simp
  | cons e rest ih =>
    intro acc hnd hfresh
    simp only [List.foldl_cons]
    have hkey : (acc.any (fun p => p.1 == Scheduler.jobIdOf e)) = false := by
      cases hc : acc.any (fun p => p.1 == Scheduler.jobIdOf e)
      · rfl
      · exact absurd ((anyKey_iff acc _).mp hc) (hfresh e (by simp))
    have hins : Scheduler.dictInsert acc (Scheduler.jobIdOf e) e =
        acc ++ [(Scheduler.jobIdOf e, e)] := by
      simp [Scheduler.dictInsert, hkey]
    rw [hins]
    rw [List.map_cons] at hnd
    have hnd' := (List.nodup_cons.mp hnd).2
    have hhead := (List.nodup_cons.mp hnd).1
    rw [ih (acc ++ [(Scheduler.jobIdOf e, e)]) hnd' ?_]
    · simp
    · intro e' he'
      rw [List.map_append]
      intro hmem
      rcases List.mem_append.mp hmem with hin | hin
      · exact hfresh e' (by simp [he']) hin
      · simp only [List.map_cons, List.map_nil, List.mem_singleton] at hin
        exact hhead (hin ▸ List.mem_map_of_mem Scheduler.jobIdOf he')

theorem buildDesired_eq {eps : List Scheduler.Endpoint}
    (h : (eps.map Scheduler.jobIdOf).Nodup) :
    Scheduler.buildDesired eps =
      eps.map (fun e => (Scheduler.jobIdOf e, e)) := by
  have := buildDesired_go eps [] h (by simp)
  simpa [Scheduler.buildDesired] using this

theorem find?_map_of_pred {α : Type} (f : α → α) (p : α → Bool)
    (hf : ∀ x, p (f x) = p x) :
    ∀ l : List α, (l.map f).find? p = (l.find? p).map f := by
  intro l
  induction l with
  | nil => rfl
  | cons a tl ih =>
    rw [List.map_cons]
    cases hp : p a
    · rw [List.find?_cons_of_neg _ (by rw [hf]; simp [hp]),
        List.find?_cons_of_neg _ (by simp [hp])]
      exact ih
    · rw [List.find?_cons_of_pos _ (by rw [hf]; exact hp),
        List.find?_cons_of_pos _ hp]
      rfl

/-- The job-id set is unchanged by `reschedule_job` (modelled as a map that
replaces the interval of matching jobs). -/
theorem map_update_ids (st : List Scheduler.Job) (jid : String) (iv : ℤ) :
    ((st.map (fun j' => if j'.id == jid then
      { j' with interval_seconds := iv } else j')).map Scheduler.Job.id) =
    st.map Scheduler.Job.id := by
  rw [List.map_map]
  apply List.map_congr_left
  intro j _
  by_cases h : (j.id == jid) = true <;> simp [h, Function.comp]

theorem find?_update_pred (st : List Scheduler.Job) (jid : String) (iv : ℤ)
    (q : String) :
    (st.map (fun j' => if j'.id == jid then
      { j' with interval_seconds := iv } else j')).find?
        (fun j' => j'.id == q) =
    (st.find? (fun j' => j'.id == q)).map (fun j' => if j'.id == jid then
      { j' with interval_seconds := iv } else j') := by
  apply find?_map_of_pred
  intro x
  by_cases h : (x.id == jid) = true <;> simp [h]

theorem find?_id_isSome (st : List Scheduler.Job) (jid : String)
    (h : jid ∈ st.map Scheduler.Job.id) :
    (st.find? (fun j' => j'.id == jid)).isSome = true := by
  obtain ⟨j, hj, hid⟩ := List.mem_map.mp h
  exact List.find?_isSome.mpr ⟨j, hj, by simp [hid]⟩

theorem find?_id_eq_none (st : List Scheduler.Job) (jid : String)
    (h : jid ∉ st.map Scheduler.Job.id) :
    st.find? (fun j' => j'.id == jid) = none := by
  refine List.find?_eq_none.mpr (fun x hx => ?_)
  simp only [beq_iff_eq]
  intro he
  exact h (he ▸ List.mem_map_of_mem Scheduler.Job.id hx)

theorem syncLoop_cons_reschedule_fst (ids : List String) (jid : String)
    (ep : Scheduler.Endpoint) (rest : List (String × Scheduler.Endpoint))
    (st : List Scheduler.Job) (j : Scheduler.Job)
    (hc : ids.contains jid = true)
    (hfind : st.find? (fun j' => j'.id == jid) = some j)
    (hne : j.interval_seconds ≠ ep.monitoring_interval_seconds) :
    (Scheduler.syncLoop ids ((jid, ep) :: rest) st).1 =
      (Scheduler.syncLoop ids rest (st.map (fun j' =>
        if j'.id == jid then { j' with interval_seconds :=
          ep.monitoring_interval_seconds } else j'))).1 := by
  simp only [Scheduler.syncLoop]
  rw [hc, hfind]
  simp [hne]

theorem syncLoop_cons_keep_fst (ids : List String) (jid : String)
    (ep : Scheduler.Endpoint) (rest : List (String × Scheduler.Endpoint))
    (st : List Scheduler.Job) (j : Scheduler.Job)
    (hc : ids.contains jid = true)
    (hfind : st.find? (fun j' => j'.id == jid) = some j)
    (heq : j.interval_seconds = ep.monitoring_interval_seconds) :
    (Scheduler.syncLoop ids ((jid, ep) :: rest) st).1 =
      (Scheduler.syncLoop ids rest st).1 := by
  simp only [Scheduler.syncLoop]
  rw [hc, hfind]
  simp [heq]

theorem syncLoop_cons_add_fst (ids : List String) (jid : String)
    (ep : Scheduler.Endpoint) (rest : List (String × Scheduler.Endpoint))
    (st : List Scheduler.Job)
    (hc : ids.contains jid = false) :
    (Scheduler.syncLoop ids ((jid, ep) :: rest) st).1 =
      (Scheduler.syncLoop ids rest (st ++
        [(⟨jid, "Monitor: " ++ ep.name, ep.monitoring_interval_seconds⟩ :
          Scheduler.Job)])).1 := by
  simp only [Scheduler.syncLoop]
  rw [hc]
  simp

/-- Invariant of the add-or-update loop of `sync_jobs`: starting from a
job list whose ids are exactly reflected in `ids` for every desired key,
the loop produces a job list with distinct ids, drawn from the initial ids
and the desired keys, in which every desired entry is present with its
desired interval; keys outside `desired` are untouched. -/
theorem syncLoop_spec (ids : List String)
    (des : List (String × Scheduler.Endpoint)) :
    ∀ st : List Scheduler.Job,
    (des.map Prod.fst).Nodup →
    (st.map Scheduler.Job.id).Nodup →
    (∀ p ∈ des, (p.1 ∈ ids ↔ p.1 ∈ st.map Scheduler.Job.id)) →
    (((Scheduler.syncLoop ids des st).1.map Scheduler.Job.id).Nodup ∧
     (∀ j ∈ (Scheduler.syncLoop ids des st).1,
        j.id ∈ st.map Scheduler.Job.id ∨ j.id ∈ des.map Prod.fst) ∧
     (∀ p ∈ des, ∃ j, (Scheduler.syncLoop ids des st).1.find?
          (fun j' => j'.id == p.1) = some j ∧
        j.interval_seconds = p.2.monitoring_interval_seconds) ∧
     (∀ q, q ∉ des.map Prod.fst →
        ((Scheduler.syncLoop ids des st).1.find? (fun j' => j'.id == q) =
          st.find? (fun j' => j'.id == q) ∧
         (q ∈ (Scheduler.syncLoop ids des st).1.map Scheduler.Job.id ↔
          q ∈ st.map Scheduler.Job.id)))) := by
  induction des with
  | nil =>
    intro st _ hst _
    exact ⟨hst, fun j hj => Or.inl (List.mem_map_of_mem _ hj),
      fun p hp => absurd hp (List.not_mem_nil p),
      fun q _ => ⟨rfl, Iff.rfl⟩⟩
  | cons hd rest ih =>
    obtain ⟨jid, ep⟩ := hd
    intro st hnd hst hinv
    rw [List.map_cons] at hnd
    have hndrest : (rest.map Prod.fst).Nodup := (List.nodup_cons.mp hnd).2
    have hhead : jid ∉ rest.map Prod.fst := (List.nodup_cons.mp hnd).1
    by_cases hc : ids.contains jid = true
    · -- the job id is among the pre-removal ids
      have hmem : jid ∈ st.map Scheduler.Job.id :=
        (hinv (jid, ep) (by simp)).mp ((contains_iff_mem ids jid).mp hc)
      obtain ⟨j, hfind⟩ :=
        Option.isSome_iff_exists.mp (find?_id_isSome st jid hmem)
      have hjid : j.id = jid := by
        simpa [beq_iff_eq] using List.find?_some hfind
      by_cases hne : j.interval_seconds ≠ ep.monitoring_interval_seconds
      · -- reschedule branch
        rw [syncLoop_cons_reschedule_fst ids jid ep rest st j hc hfind hne]
        have hids' := map_update_ids st jid ep.monitoring_interval_seconds
        have hnod' : ((st.map (fun j' => if j'.id == jid then
            { j' with interval_seconds := ep.monitoring_interval_seconds }
            else j')).map Scheduler.Job.id).Nodup := by rw [hids']; exact hst
        have hinv' : ∀ p ∈ rest, (p.1 ∈ ids ↔
            p.1 ∈ (st.map (fun j' => if j'.id == jid then
              { j' with interval_seconds := ep.monitoring_interval_seconds }
              else j')).map Scheduler.Job.id) := by
          intro p hp
          rw [hids']
          exact hinv p (by simp [hp])
        obtain ⟨ih1, ih2, ih3, ih4⟩ := ih _ hndrest hnod' hinv'
        refine ⟨ih1, ?_, ?_, ?_⟩
        · intro j' hj'
          rcases ih2 j' hj' with h | h
          · rw [hids'] at h
            exact Or.inl h
          · exact Or.inr (by simp [h])
        · intro p hp
          rcases List.mem_cons.mp hp with rfl | hp'
          · refine ⟨{ j with interval_seconds :=
              ep.monitoring_interval_seconds }, ?_, rfl⟩
            rw [(ih4 jid hhead).1, find?_update_pred, hfind]
            simp [hjid]
          · exact ih3 p hp'
        · intro q hq
          have hq1 : q ≠ jid := by
            intro he
            exact hq (by simp [he])
          have hq2 : q ∉ rest.map Prod.fst := by
            intro he
            exact hq (by simp [he])
          obtain ⟨hf, hm⟩ := ih4 q hq2
          constructor
          · rw [hf, find?_update_pred]
            cases hfq : st.find? (fun j' => j'.id == q) with
            | none => rfl
            | some y =>
              have hy : y.id = q := by
                simpa [beq_iff_eq] using List.find?_some hfq
              have hyj : (y.id == jid) = false := by
                simp [hy, hq1]
              simp [hyj]
              exact fun he => absurd (hy.symm.trans he) hq1
          · rw [hm, hids']
      · -- interval unchanged
        have hivq : j.interval_seconds = ep.monitoring_interval_seconds :=
          not_ne_iff.mp hne
        rw [syncLoop_cons_keep_fst ids jid ep rest st j hc hfind hivq]
        obtain ⟨ih1, ih2, ih3, ih4⟩ := ih st hndrest hst
          (fun p hp => hinv p (by simp [hp]))
        refine ⟨ih1, ?_, ?_, ?_⟩
        · intro j' hj'
          rcases ih2 j' hj' with h | h
          · exact Or.inl h
          · exact Or.inr (by simp [h])
        · intro p hp
          rcases List.mem_cons.mp hp with rfl | hp'
          · refine ⟨j, ?_, hivq⟩
            rw [(ih4 jid hhead).1]
            exact hfind
          · exact ih3 p hp'
        · intro q hq
          have hq2 : q ∉ rest.map Prod.fst := by
            intro he
            exact hq (by simp [he])
          exact ih4 q hq2
    · -- new endpoint: add the job
      have hcf : ids.contains jid = false := by
        cases h : ids.contains jid
        · rfl
        · exact absurd h hc
      have hnotmem : jid ∉ st.map Scheduler.Job.id := fun h =>
        hc ((contains_iff_mem ids jid).mpr ((hinv (jid, ep) (by simp)).mpr h))
      rw [syncLoop_cons_add_fst ids jid ep rest st hcf]
      set nj : Scheduler.Job :=
        ⟨jid, "Monitor: " ++ ep.name, ep.monitoring_interval_seconds⟩
        with hnj
      have hids' : (st ++ [nj]).map Scheduler.Job.id =
          st.map Scheduler.Job.id ++ [jid] := by
        simp [hnj]
      have hnod' : ((st ++ [nj]).map Scheduler.Job.id).Nodup := by
        rw [hids', List.nodup_append]
        refine ⟨hst, by simp, ?_⟩
        intro a ha hb
        simp only [List.mem_singleton] at hb
        exact hnotmem (hb ▸ ha)
      have hinv' : ∀ p ∈ rest, (p.1 ∈ ids ↔
          p.1 ∈ (st ++ [nj]).map Scheduler.Job.id) := by
        intro p hp
        have hpne : p.1 ≠ jid := by
          intro he
          exact hhead (he ▸ List.mem_map_of_mem Prod.fst hp)
        rw [hids', List.mem_append]
        constructor
        · intro h
          exact Or.inl ((hinv p (by simp [hp])).mp h)
        · intro h
          rcases h with h | h
          · exact (hinv p (by simp [hp])).mpr h
          · simp only [List.mem_singleton] at h
            exact absurd h hpne
      obtain ⟨ih1, ih2, ih3, ih4⟩ := ih (st ++ [nj]) hndrest hnod' hinv'
      refine ⟨ih1, ?_, ?_, ?_⟩
      · intro j' hj'
        rcases ih2 j' hj' with h | h
        · rw [hids', List.mem_append] at h
          rcases h with h | h
          · exact Or.inl h
          · simp only [List.mem_singleton] at h
            exact Or.inr (by simp [h])
        · exact Or.inr (by simp [h])
      · intro p hp
        rcases List.mem_cons.mp hp with rfl | hp'
        · refine ⟨nj, ?_, rfl⟩
          rw [(ih4 jid hhead).1, List.find?_append,
            find?_id_eq_none st jid hnotmem]
          simp [hnj]
        · exact ih3 p hp'
      · intro q hq
        have hq1 : q ≠ jid := by
          intro he
          exact hq (by simp [he])
        have hq2 : q ∉ rest.map Prod.fst := by
          intro he
          exact hq (by simp [he])
        obtain ⟨hf, hm⟩ := ih4 q hq2
        constructor
        · rw [hf, List.find?_append,
            find?_id_eq_none [nj] q (by simp [hnj, hq1]),
            Option.or_none]
        · rw [hm, hids', List.mem_append]
          constructor
          · intro h
            rcases h with h | h
            · exact h
            · simp only [List.mem_singleton] at h
              exact absurd h hq1
          · intro h
            exact Or.inl h

/-- Running the add-or-update loop over desired entries that are all
present with their desired intervals changes nothing and counts nothing. -/
theorem syncLoop_noop (ids : List String)
    (des : List (String × Scheduler.Endpoint)) :
    ∀ st : List Scheduler.Job,
    (∀ p ∈ des, ids.contains p.1 = true) →
    (∀ p ∈ des, ∃ j, st.find? (fun j' => j'.id == p.1) = some j ∧
       j.interval_seconds = p.2.monitoring_interval_seconds) →
    Scheduler.syncLoop ids des st = (st, 0, 0) := by
  induction des with
  | nil => intro st _ _; simp [Scheduler.syncLoop]
  | cons hd rest ih =>
    obtain ⟨jid, ep⟩ := hd
    intro st hc hf
    obtain ⟨j, hfind, hiv⟩ := hf (jid, ep) (by simp)
    have hcj := hc (jid, ep) (by simp)
    have hne : ¬(j.interval_seconds ≠ ep.monitoring_interval_seconds) := by
      simp [hiv]
    simp only [Scheduler.syncLoop, hcj, if_true, hfind, hne, ite_false]
    exact ih st (fun p hp => hc p (by simp [hp]))
      (fun p hp => hf p (by simp [hp]))

/-- C9: running `sync_jobs` twice consecutively with no change to the
endpoint set yields `added = updated = removed = 0` on the second call, and
the reported total equals the number of endpoints.  (Job ids in the
scheduler and endpoint ids in the repository are distinct, as APScheduler
and the database enforce.) -/
theorem sync_jobs_idempotent (jobs : List Scheduler.Job)
    (endpoints : List Scheduler.Endpoint)
    (hjobs : (jobs.map Scheduler.Job.id).Nodup)
    (heps : (endpoints.map Scheduler.Endpoint.id).Nodup) :
    (Scheduler.sync_jobs (Scheduler.sync_jobs jobs endpoints).2
      endpoints).1 =
      { total_jobs := endpoints.length, added := 0, updated := 0,
        removed := 0 } := by
  have hjid := map_jobIdOf_nodup heps
  have hdes := buildDesired_eq hjid
  have hkeys : (Scheduler.buildDesired endpoints).map Prod.fst =
      endpoints.map Scheduler.jobIdOf := by
    rw [hdes, List.map_map]
    rfl
  have hkeysnodup : ((Scheduler.buildDesired endpoints).map Prod.fst).Nodup := by
    rw [hkeys]
    exact hjid
  set des := Scheduler.buildDesired endpoints with hdesdef
  set kept := jobs.filter (fun j => des.any (fun p => p.1 == j.id))
    with hkeptdef
  have hkeptnodup : (kept.map Scheduler.Job.id).Nodup :=
    ((List.filter_sublist jobs).map Scheduler.Job.id).nodup hjobs
  have hinv1 : ∀ p ∈ des, (p.1 ∈ jobs.map Scheduler.Job.id ↔
      p.1 ∈ kept.map Scheduler.Job.id) := by
    intro p hp
    constructor
    · intro h
      obtain ⟨j, hj, hid⟩ := List.mem_map.mp h
      refine List.mem_map.mpr ⟨j, List.mem_filter.mpr ⟨hj, ?_⟩, hid⟩
      exact (anyKey_iff des j.id).mpr
        (hid ▸ List.mem_map_of_mem Prod.fst hp)
    · intro h
      obtain ⟨j, hj, hid⟩ := List.mem_map.mp h
      exact List.mem_map.mpr ⟨j, (List.mem_filter.mp hj).1, hid⟩
  obtain ⟨hs1nodup, hs1sub, hs1find, _⟩ :=
    syncLoop_spec (jobs.map Scheduler.Job.id) des kept hkeysnodup
      hkeptnodup hinv1
  set s1 := (Scheduler.syncLoop (jobs.map Scheduler.Job.id) des kept).1
    with hs1def
  have hstate : (Scheduler.sync_jobs jobs endpoints).2 = s1 := rfl
  have hsub' : ∀ j ∈ s1, j.id ∈ des.map Prod.fst := by
    intro j hj
    rcases hs1sub j hj with h | h
    · obtain ⟨j', hj', hid⟩ := List.mem_map.mp h
      have := (List.mem_filter.mp hj').2
      exact hid ▸ (anyKey_iff des j'.id).mp this
    · exact h
  have hmem1 : ∀ p ∈ des, p.1 ∈ s1.map Scheduler.Job.id := by
    intro p hp
    obtain ⟨j, hfind, _⟩ := hs1find p hp
    have hj := List.mem_of_find?_eq_some hfind
    have hid : j.id = p.1 := by
      simpa [beq_iff_eq] using List.find?_some hfind
    exact List.mem_map.mpr ⟨j, hj, hid⟩
  have hkept2 : s1.filter (fun j => des.any (fun p => p.1 == j.id)) = s1 :=
    List.filter_eq_self.mpr
      (fun j hj => (anyKey_iff des j.id).mpr (hsub' j hj))
  have hrem2 : s1.filter (fun j => !(des.any (fun p => p.1 == j.id))) = [] :=
    List.filter_eq_nil_iff.mpr
      (fun j hj => by simp [(anyKey_iff des j.id).mpr (hsub' j hj)])
  have hloop2 := syncLoop_noop (s1.map Scheduler.Job.id) des s1
    (fun p hp => (contains_iff_mem _ _).mpr (hmem1 p hp))
    (fun p hp => hs1find p hp)
  rw [hstate]
  show ({ total_jobs := des.length,
          added := (Scheduler.syncLoop (s1.map Scheduler.Job.id) des
            (s1.filter (fun j => des.any (fun p => p.1 == j.id)))).2.1,
          updated := (Scheduler.syncLoop (s1.map Scheduler.Job.id) des
            (s1.filter (fun j => des.any (fun p => p.1 == j.id)))).2.2,
          removed := (s1.filter
            (fun j => !(des.any (fun p => p.1 == j.id)))).length } :
        Scheduler.SyncReport) = _
  rw [hkept2, hrem2, hloop2]
  have hlen : des.length = endpoints.length := by
    rw [hdes]
    exact List.length_map endpoints _
  simp [hlen]

theorem sync_jobs_idempotent_witness :
    (Scheduler.sync_jobs
      (Scheduler.sync_jobs
        [⟨"monitor_a", "Monitor: A", 60⟩, ⟨"monitor_c", "Monitor: C", 30⟩]
        [⟨"a", "A", 60⟩, ⟨"b", "B", 120⟩]).2
      [⟨"a", "A", 60⟩, ⟨"b", "B", 120⟩]).1 =
      { total_jobs := 2, added := 0, updated := 0, removed := 0 } := by
  have h := sync_jobs_idempotent
    [⟨"monitor_a", "Monitor: A", 60⟩, ⟨"monitor_c", "Monitor: C", 30⟩]
    [⟨"a", "A", 60⟩, ⟨"b", "B", 120⟩]
    (by simp) (by simp)
  exact h

/-! ## C2 -/

namespace SchemaDiff

@[simp] theorem zero_missing : (0 : DiffCounts).missing_count = 0 := rfl

@[simp] theorem zero_new : (0 : DiffCounts).new_count = 0 := rfl

@[simp] theorem zero_tm : (0 : DiffCounts).type_mismatch_count = 0 := rfl

@[simp] theorem add_missing (x y : DiffCounts) :
    (x + y).missing_count = x.missing_count + y.missing_count := rfl

@[simp] theorem add_new (x y : DiffCounts) :
    (x + y).new_count = x.new_count + y.new_count := rfl

@[simp] theorem add_tm (x y : DiffCounts) :
    (x + y).type_mismatch_count = x.type_mismatch_count +
      y.type_mismatch_count := rfl

theorem lookup_isSome_iff (a : List (String × Json)) (k : String) :
    (List.lookup k a).isSome = true ↔ k ∈ keysOf a := by
  induction a with
  | nil => simp [List.lookup, keysOf]
  | cons p tl ih =>
    obtain ⟨k', v'⟩ := p
    rw [List.lookup_cons]
    by_cases hkk : k = k'
    · subst hkk
      simp [keysOf]
    · have hb : (k == k') = false := by simp [hkk]
      simp only [hb, keysOf, List.map_cons, List.mem_cons]
      rw [keysOf] at ih
      rw [ih]
      constructor
      · exact fun h => Or.inr h
      · rintro (h | h)
        · exact absurd h hkk
        · exact h

theorem lookup_mem {a : List (String × Json)} {k : String} {v : Json}
    (h : List.lookup k a = some v) : (k, v) ∈ a := by
  induction a with
  | nil => simp [List.lookup] at h
  | cons p tl ih =>
    obtain ⟨k', v'⟩ := p
    rw [List.lookup_cons] at h
    by_cases hkk : k = k'
    · subst hkk
      simp only [beq_self_eq_true] at h
      simp only [Option.some.injEq] at h
      subst h
      exact List.mem_cons_self _ _
    · have hb : (k == k') = false := by simp [hkk]
      simp only [hb] at h
      exact List.mem_cons_of_mem _ (ih h)

theorem lookup_self {e : List (String × Json)} (hnd : (keysOf e).Nodup) :
    ∀ {k : String} {v : Json}, (k, v) ∈ e → List.lookup k e = some v := by
  induction e with
  | nil => intro k v h; exact absurd h (List.not_mem_nil _)
  | cons p tl ih =>
    obtain ⟨k', v'⟩ := p
    intro k v h
    rw [keysOf, List.map_cons] at hnd
    have hh : k' ∉ tl.map Prod.fst := (List.nodup_cons.mp hnd).1
    have ht : (keysOf tl).Nodup := (List.nodup_cons.mp hnd).2
    rcases List.mem_cons.mp h with he | he
    · rw [Prod.mk.injEq] at he
      obtain ⟨h1, h2⟩ := he
      subst h1
      subst h2
      rw [List.lookup_cons]
      simp
    · have hk : k ≠ k' := by
        intro hkk
        subst hkk
        exact hh (List.mem_map_of_mem Prod.fst he)
      rw [List.lookup_cons]
      have hb : (k == k') = false := by simp [hk]
      simp only [hb]
      exact ih ht he

theorem sizeOf_lookup_lt {a : List (String × Json)} {k : String} {v : Json}
    (h : List.lookup k a = some v) : sizeOf v < sizeOf a := by
  have hm := List.sizeOf_lt_of_mem (lookup_mem h)
  simp only [Prod.mk.sizeOf_spec] at hm
  omega

theorem nullFreeFields_value {l : List (String × Json)} {k : String}
    {v : Json} (hl : nullFreeFields l = true)
    (h : List.lookup k l = some v) : nullFree v = true := by
  induction l with
  | nil => simp [List.lookup] at h
  | cons p tl ih =>
    obtain ⟨k', v'⟩ := p
    rw [nullFreeFields] at hl
    rw [Bool.and_eq_true] at hl
    rw [List.lookup_cons] at h
    by_cases hkk : k = k'
    · subst hkk
      simp only [beq_self_eq_true] at h
      simp only [Option.some.injEq] at h
      subst h
      exact hl.1
    · have hb : (k == k') = false := by simp [hkk]
      simp only [hb] at h
      exact ih hl.2 h

theorem wfKeysFields_value {l : List (String × Json)} {k : String}
    {v : Json} (hl : wfKeysFields l = true)
    (h : List.lookup k l = some v) : wfKeys v = true := by
  induction l with
  | nil => simp [List.lookup] at h
  | cons p tl ih =>
    obtain ⟨k', v'⟩ := p
    rw [wfKeysFields] at hl
    rw [Bool.and_eq_true] at hl
    rw [List.lookup_cons] at h
    by_cases hkk : k = k'
    · subst hkk
      simp only [beq_self_eq_true] at h
      simp only [Option.some.injEq] at h
      subst h
      exact hl.1
    · have hb : (k == k') = false := by simp [hkk]
      simp only [hb] at h
      exact ih hl.2 h

theorem isNull_eq_false {v : Json} (h : nullFree v = true) :
    v.isNull = false := by
  cases v <;> first | rfl | (rw [nullFree] at h; exact absurd h (by simp))

theorem walkCommon_eq_sum (a : List (String × Json)) :
    ∀ e : List (String × Json),
    walkCommon e a = (e.map (fun p =>
      match List.lookup p.1 a with
      | none => (0 : DiffCounts)
      | some av => walkPair p.2 av)).sum := by
  intro e
  induction e with
  | nil =>
    rw [walkCommon]
    rfl
  | cons p tl ih =>
    obtain ⟨k, ev⟩ := p
    rw [walkCommon]
    rw [List.map_cons, List.sum_cons, ih]
    cases hl : List.lookup k a <;> rfl

theorem sum_missing : ∀ l : List DiffCounts,
    l.sum.missing_count = (l.map DiffCounts.missing_count).sum := by
  intro l
  induction l with
  | nil => rfl
  | cons x tl ih => simp [List.sum_cons, ih]

theorem sum_new : ∀ l : List DiffCounts,
    l.sum.new_count = (l.map DiffCounts.new_count).sum := by
  intro l
  induction l with
  | nil => rfl
  | cons x tl ih => simp [List.sum_cons, ih]

theorem sum_tm : ∀ l : List DiffCounts,
    l.sum.type_mismatch_count =
      (l.map DiffCounts.type_mismatch_count).sum := by
  intro l
  induction l with
  | nil => rfl
  | cons x tl ih => simp [List.sum_cons, ih]

theorem sum_map_filter_zero {α : Type} (p : α → Bool) (g : α → Nat) :
    ∀ l : List α, (∀ k ∈ l, p k = false → g k = 0) →
    (l.map g).sum = ((l.filter p).map g).sum := by
  intro l
  induction l with
  | nil => intro _; rfl
  | cons k tl ih =>
    intro h
    rw [List.map_cons, List.sum_cons]
    cases hp : p k
    · rw [List.filter_cons]
      simp only [hp, Bool.false_eq_true, if_false]
      rw [h k (by simp) hp, Nat.zero_add]
      exact ih (fun k' hk' => h k' (by simp [hk']))
    · rw [List.filter_cons]
      simp only [hp, if_true]
      rw [List.map_cons, List.sum_cons]
      rw [ih (fun k' hk' => h k' (by simp [hk']))]

theorem objFields?_wf {v : Json} {fs : List (String × Json)}
    (h : v.objFields? = some fs) (hw : wfKeys v = true) :
    wfFields fs = true := by
  cases v <;> simp [Json.objFields?] at h
  subst h
  rw [wfKeys] at hw
  exact hw

theorem objFields?_nullFree {v : Json} {fs : List (String × Json)}
    (h : v.objFields? = some fs) (hn : nullFree v = true) :
    nullFreeFields fs = true := by
  cases v <;> simp [Json.objFields?] at h
  subst h
  rw [nullFree] at hn
  exact hn

theorem objFields?_sizeOf {v : Json} {fs : List (String × Json)}
    (h : v.objFields? = some fs) : sizeOf fs < sizeOf v := by
  cases v <;> simp [Json.objFields?] at h
  subst h
  simp [Json.obj.sizeOf_spec]

theorem arrHead?_wf {v x : Json} (h : v.arrHead? = some x)
    (hw : wfKeys v = true) : wfKeys x = true := by
  cases v with
  | arr xs =>
    cases xs with
    | nil => simp [Json.arrHead?] at h
    | cons y ys =>
      simp only [Json.arrHead?, Option.some.injEq] at h
      subst h
      rw [wfKeys] at hw
      rw [wfKeysList] at hw
      rw [Bool.and_eq_true] at hw
      exact hw.1
  | null => simp [Json.arrHead?] at h
  | bool b => simp [Json.arrHead?] at h
  | int n => simp [Json.arrHead?] at h
  | float q => simp [Json.arrHead?] at h
  | str s => simp [Json.arrHead?] at h
  | obj fs => simp [Json.arrHead?] at h

theorem arrHead?_nullFree {v x : Json} (h : v.arrHead? = some x)
    (hn : nullFree v = true) : nullFree x = true := by
  cases v with
  | arr xs =>
    cases xs with
    | nil => simp [Json.arrHead?] at h
    | cons y ys =>
      simp only [Json.arrHead?, Option.some.injEq] at h
      subst h
      rw [nullFree] at hn
      rw [nullFreeList] at hn
      rw [Bool.and_eq_true] at hn
      exact hn.1
  | null => simp [Json.arrHead?] at h
  | bool b => simp [Json.arrHead?] at h
  | int n => simp [Json.arrHead?] at h
  | float q => simp [Json.arrHead?] at h
  | str s => simp [Json.arrHead?] at h
  | obj fs => simp [Json.arrHead?] at h

theorem arrHead?_sizeOf {v x : Json} (h : v.arrHead? = some x) :
    sizeOf x < sizeOf v := by
  cases v with
  | arr xs =>
    cases xs with
    | nil => simp [Json.arrHead?] at h
    | cons y ys =>
      simp only [Json.arrHead?, Option.some.injEq] at h
      subst h
      simp [Json.arr.sizeOf_spec, List.cons.sizeOf_spec]
      omega
  | null => simp [Json.arrHead?] at h
  | bool b => simp [Json.arrHead?] at h
  | int n => simp [Json.arrHead?] at h
  | float q => simp [Json.arrHead?] at h
  | str s => simp [Json.arrHead?] at h
  | obj fs => simp [Json.arrHead?] at h

/-- `walkPair` with the nested constructor matches re-expressed through
`objFields?` / `arrHead?`, for structured reasoning. -/
theorem walkPair_eq (ev av : Json) :
    walkPair ev av =
      if av.isNull && !ev.isNull then { type_mismatch_count := 1 }
      else if ev.isNull then 0
      else if typeName ev ≠ typeName av then { type_mismatch_count := 1 }
      else
        match ev.objFields?, av.objFields? with
        | some ef, some af => walkObj ef af
        | _, _ =>
          match ev.arrHead?, av.arrHead? with
          | some e0, some a0 =>
            (match e0.objFields?, a0.objFields? with
             | some ef, some af => walkObj ef af
             | _, _ => 0)
          | _, _ => 0 := by
  rw [walkPair.eq_def]
  split_ifs <;> try rfl
  rcases ev with _ | b | n | q | st | es | ef <;>
    rcases av with _ | b2 | n2 | q2 | st2 | as2 | af2 <;>
    first
      | rfl
      | (rcases es with _ | ⟨e0, es'⟩ <;> rcases as2 with _ | ⟨a0, as'⟩ <;>
          first
            | rfl
            | (cases e0 <;> cases a0 <;> rfl))
      | (cases es <;> rfl)
      | (cases as2 <;> rfl)

theorem typeName_of_objFields? {v : Json} {fs : List (String × Json)}
    (h : v.objFields? = some fs) : typeName v = "dict" := by
  cases v <;> simp [Json.objFields?] at h <;> rfl

theorem objFields?_of_typeName {v : Json} (h : typeName v = "dict") :
    ∃ fs, v.objFields? = some fs := by
  cases v <;> first
    | exact ⟨_, rfl⟩
    | (exfalso; simp [typeName] at h)

/-- `_walk` with the three loops made explicit. -/
theorem walkObj_eq (e a : List (String × Json)) :
    walkObj e a =
      { missing_count := ((keysOf e).filter
          (fun k => !((keysOf a).contains k))).length +
          (walkCommon e a).missing_count,
        new_count := ((keysOf a).filter
          (fun k => !((keysOf e).contains k))).length +
          (walkCommon e a).new_count,
        type_mismatch_count := (walkCommon e a).type_mismatch_count } := by
  rw [walkObj.eq_def]

/-- Reindexing of the common-key sum: summing a component of `walkPair`
over the pairs of `expected` (looked up in `actual`) equals summing the
swapped component over the pairs of `actual` (looked up in `expected`),
provided the per-pair values agree under the swap. -/
theorem common_sum_eq (e a : List (String × Json))
    (hndE : (keysOf e).Nodup) (hndA : (keysOf a).Nodup)
    (f g : DiffCounts → Nat) (hf0 : f 0 = 0) (hg0 : g 0 = 0)
    (hswap : ∀ k ev av, List.lookup k e = some ev →
      List.lookup k a = some av →
      f (walkPair ev av) = g (walkPair av ev)) :
    (e.map (fun p => f (match List.lookup p.1 a with
      | none => (0 : DiffCounts)
      | some av => walkPair p.2 av))).sum =
    (a.map (fun p => g (match List.lookup p.1 e with
      | none => (0 : DiffCounts)
      | some ev => walkPair p.2 ev))).sum := by
  have hL : (e.map (fun p => f (match List.lookup p.1 a with
      | none => (0 : DiffCounts)
      | some av => walkPair p.2 av))) =
      ((keysOf e).map (fun k =>
        match List.lookup k e, List.lookup k a with
        | some ev, some av => f (walkPair ev av)
        | _, _ => 0)) := by
    rw [keysOf, List.map_map]
    refine (List.map_congr_left ?_).symm
    intro p hp
    have hself : List.lookup p.1 e = some p.2 :=
      lookup_self hndE (by simpa using hp)
    simp only [Function.comp]
    rw [hself]
    cases List.lookup p.1 a <;> simp [hf0]
  have hR : (a.map (fun p => g (match List.lookup p.1 e with
      | none => (0 : DiffCounts)
      | some ev => walkPair p.2 ev))) =
      ((keysOf a).map (fun k =>
        match List.lookup k a, List.lookup k e with
        | some av, some ev => g (walkPair av ev)
        | _, _ => 0)) := by
    rw [keysOf, List.map_map]
    refine (List.map_congr_left ?_).symm
    intro p hp
    have hself : List.lookup p.1 a = some p.2 :=
      lookup_self hndA (by simpa using hp)
    simp only [Function.comp]
    rw [hself]
    cases List.lookup p.1 e <;> simp [hg0]
  rw [hL, hR]
  rw [sum_map_filter_zero (fun k => (List.lookup k a).isSome)
    (fun k => match List.lookup k e, List.lookup k a with
      | some ev, some av => f (walkPair ev av)
      | _, _ => 0) (keysOf e) ?_]
  · rw [sum_map_filter_zero (fun k => (List.lookup k e).isSome)
      (fun k => match List.lookup k a, List.lookup k e with
        | some av, some ev => g (walkPair av ev)
        | _, _ => 0) (keysOf a) ?_]
    · have hperm : ((keysOf e).filter (fun k => (List.lookup k a).isSome)).Perm
          ((keysOf a).filter (fun k => (List.lookup k e).isSome)) := by
        rw [List.perm_ext_iff_of_nodup (hndE.filter _) (hndA.filter _)]
        intro k
        simp only [List.mem_filter]
        constructor
        · rintro ⟨h1, h2⟩
          exact ⟨(lookup_isSome_iff a k).mp h2, (lookup_isSome_iff e k).mpr h1⟩
        · rintro ⟨h1, h2⟩
          exact ⟨(lookup_isSome_iff e k).mp h2, (lookup_isSome_iff a k).mpr h1⟩
      have hpt : (((keysOf e).filter (fun k => (List.lookup k a).isSome)).map
          (fun k => match List.lookup k e, List.lookup k a with
            | some ev, some av => f (walkPair ev av)
            | _, _ => 0)) =
          (((keysOf e).filter (fun k => (List.lookup k a).isSome)).map
          (fun k => match List.lookup k a, List.lookup k e with
            | some av, some ev => g (walkPair av ev)
            | _, _ => 0)) := by
        refine List.map_congr_left ?_
        intro k hk
        obtain ⟨hk1, hk2⟩ := List.mem_filter.mp hk
        obtain ⟨av, hav⟩ := Option.isSome_iff_exists.mp hk2
        obtain ⟨ev, hev⟩ := Option.isSome_iff_exists.mp
          ((lookup_isSome_iff e k).mpr hk1)
        rw [hev, hav]
        exact hswap k ev av hev hav
      rw [hpt]
      exact List.Perm.sum_eq (hperm.map _)
    · intro k _ hfalse
      have h1 : List.lookup k e = none := by
        cases hle : List.lookup k e with
        | none => rfl
        | some _ =>
          simp [hle] at hfalse
      simp only [h1]
      cases List.lookup k a <;> rfl
  · intro k _ hfalse
    have h1 : List.lookup k a = none := by
      cases hla : List.lookup k a with
      | none => rfl
      | some _ =>
        simp [hla] at hfalse
    simp only [h1]
    cases List.lookup k e <;> rfl

/-- Symmetry of the walk on well-formed, null-free objects: swapping the
arguments swaps the missing/new counts and preserves the type-mismatch
count. -/
theorem walkObj_symm : ∀ n : Nat, ∀ e a : List (String × Json),
    sizeOf e + sizeOf a ≤ n →
    wfFields e = true → wfFields a = true →
    nullFreeFields e = true → nullFreeFields a = true →
    (walkObj e a).missing_count = (walkObj a e).new_count ∧
    (walkObj e a).new_count = (walkObj a e).missing_count ∧
    (walkObj e a).type_mismatch_count =
      (walkObj a e).type_mismatch_count := by
  intro n
  induction n using Nat.strong_induction_on with
  | _ n ih =>
  intro e a hsz hwe hwa hnfe hnfa
  rw [wfFields, Bool.and_eq_true, decide_eq_true_eq] at hwe hwa
  obtain ⟨hndE, hwvE⟩ := hwe
  obtain ⟨hndA, hwvA⟩ := hwa
  have pairSymm : ∀ ev av, sizeOf ev + sizeOf av < n →
      wfKeys ev = true → wfKeys av = true →
      nullFree ev = true → nullFree av = true →
      ((walkPair ev av).missing_count = (walkPair av ev).new_count ∧
       (walkPair ev av).new_count = (walkPair av ev).missing_count ∧
       (walkPair ev av).type_mismatch_count =
         (walkPair av ev).type_mismatch_count) := by
    intro ev av hlt hwk1 hwk2 hnf1 hnf2
    rw [walkPair_eq, walkPair_eq]
    rw [isNull_eq_false hnf1, isNull_eq_false hnf2]
    simp only [Bool.false_and, Bool.false_eq_true, if_false]
    by_cases ht : typeName ev = typeName av
    · rw [if_neg (fun h => h ht), if_neg (fun h => h ht.symm)]
      cases hobj1 : ev.objFields? with
      | some ef =>
        cases hobj2 : av.objFields? with
        | some af =>
          have h1 := objFields?_sizeOf hobj1
          have h2 := objFields?_sizeOf hobj2
          exact ih (sizeOf ef + sizeOf af) (by omega) ef af le_rfl
            (objFields?_wf hobj1 hwk1) (objFields?_wf hobj2 hwk2)
            (objFields?_nullFree hobj1 hnf1) (objFields?_nullFree hobj2 hnf2)
        | none =>
          exfalso
          have h1 := typeName_of_objFields? hobj1
          obtain ⟨af, haf⟩ := objFields?_of_typeName (ht.symm.trans h1)
          exact Option.noConfusion (hobj2.symm.trans haf)
      | none =>
        cases hobj2 : av.objFields? with
        | some af =>
          exfalso
          have h2 := typeName_of_objFields? hobj2
          obtain ⟨ef, hef⟩ := objFields?_of_typeName (ht.trans h2)
          exact Option.noConfusion (hobj1.symm.trans hef)
        | none =>
          cases harr1 : ev.arrHead? with
          | some e0 =>
            cases harr2 : av.arrHead? with
            | some a0 =>
              change (match e0.objFields?, a0.objFields? with
                  | some ef, some af => walkObj ef af
                  | _, _ => (0 : DiffCounts)).missing_count =
                (match a0.objFields?, e0.objFields? with
                  | some af, some ef => walkObj af ef
                  | _, _ => (0 : DiffCounts)).new_count ∧
                (match e0.objFields?, a0.objFields? with
                  | some ef, some af => walkObj ef af
                  | _, _ => (0 : DiffCounts)).new_count =
                (match a0.objFields?, e0.objFields? with
                  | some af, some ef => walkObj af ef
                  | _, _ => (0 : DiffCounts)).missing_count ∧
                (match e0.objFields?, a0.objFields? with
                  | some ef, some af => walkObj ef af
                  | _, _ => (0 : DiffCounts)).type_mismatch_count =
                (match a0.objFields?, e0.objFields? with
                  | some af, some ef => walkObj af ef
                  | _, _ => (0 : DiffCounts)).type_mismatch_count
              cases hh1 : e0.objFields? with
              | some ef =>
                cases hh2 : a0.objFields? with
                | some af =>
                  have s1 := arrHead?_sizeOf harr1
                  have s2 := arrHead?_sizeOf harr2
                  have s3 := objFields?_sizeOf hh1
                  have s4 := objFields?_sizeOf hh2
                  exact ih (sizeOf ef + sizeOf af) (by omega) ef af le_rfl
                    (objFields?_wf hh1 (arrHead?_wf harr1 hwk1))
                    (objFields?_wf hh2 (arrHead?_wf harr2 hwk2))
                    (objFields?_nullFree hh1 (arrHead?_nullFree harr1 hnf1))
                    (objFields?_nullFree hh2 (arrHead?_nullFree harr2 hnf2))
                | none => exact ⟨rfl, rfl, rfl⟩
              | none =>
                cases hh2 : a0.objFields? <;> exact ⟨rfl, rfl, rfl⟩
            | none => exact ⟨rfl, rfl, rfl⟩
          | none =>
            cases harr2 : av.arrHead? <;> exact ⟨rfl, rfl, rfl⟩
    · rw [if_pos ht, if_pos (fun h => ht h.symm)]
      exact ⟨rfl, rfl, rfl⟩
  have hcm : (walkCommon e a).missing_count = (walkCommon a e).new_count := by
    rw [walkCommon_eq_sum a e, walkCommon_eq_sum e a,
      sum_missing, sum_new, List.map_map, List.map_map]
    have h := common_sum_eq e a hndE hndA
      DiffCounts.missing_count DiffCounts.new_count rfl rfl
      (fun k ev av hev hav =>
        (pairSymm ev av
          (by
            have h1 := sizeOf_lookup_lt hev
            have h2 := sizeOf_lookup_lt hav
            omega)
          (wfKeysFields_value hwvE hev) (wfKeysFields_value hwvA hav)
          (nullFreeFields_value hnfe hev)
          (nullFreeFields_value hnfa hav)).1)
    simpa [Function.comp] using h
  have hcn : (walkCommon e a).new_count = (walkCommon a e).missing_count := by
    rw [walkCommon_eq_sum a e, walkCommon_eq_sum e a,
      sum_new, sum_missing, List.map_map, List.map_map]
    have h := common_sum_eq e a hndE hndA
      DiffCounts.new_count DiffCounts.missing_count rfl rfl
      (fun k ev av hev hav =>
        (pairSymm ev av
          (by
            have h1 := sizeOf_lookup_lt hev
            have h2 := sizeOf_lookup_lt hav
            omega)
          (wfKeysFields_value hwvE hev) (wfKeysFields_value hwvA hav)
          (nullFreeFields_value hnfe hev)
          (nullFreeFields_value hnfa hav)).2.1)
    simpa [Function.comp] using h
  have hct : (walkCommon e a).type_mismatch_count =
      (walkCommon a e).type_mismatch_count := by
    rw [walkCommon_eq_sum a e, walkCommon_eq_sum e a,
      sum_tm, sum_tm, List.map_map, List.map_map]
    have h := common_sum_eq e a hndE hndA
      DiffCounts.type_mismatch_count DiffCounts.type_mismatch_count rfl rfl
      (fun k ev av hev hav =>
        (pairSymm ev av
          (by
            have h1 := sizeOf_lookup_lt hev
            have h2 := sizeOf_lookup_lt hav
            omega)
          (wfKeysFields_value hwvE hev) (wfKeysFields_value hwvA hav)
          (nullFreeFields_value hnfe hev)
          (nullFreeFields_value hnfa hav)).2.2)
    simpa [Function.comp] using h
  rw [walkObj_eq e a, walkObj_eq a e]
  exact ⟨by simp only [hcm], by simp only [hcn], by simp only [hct]⟩

/-- C2 counterexample: `compute_diff` is not symmetric on all pairs of
objects.  With `expected = {"k": null}` and `actual = {"k": 1}` the
expected-null rule skips the key and the total is `0`; swapping the
arguments makes the actual value null against a non-null expected value,
which is a type mismatch, so the total becomes `1`. -/
theorem compute_diff_not_symmetric :
    (compute_diff [("k", Json.null)] [("k", Json.int 1)]).total_differences
      = 0 ∧
    (compute_diff [("k", Json.int 1)] [("k", Json.null)]).total_differences
      = 1 := by
  constructor <;>
    simp [compute_diff, walkObj, walkCommon, walkPair, keysOf,
      Json.isNull, typeName, List.lookup]

/-- C2 (amended): on well-formed objects (pairwise-distinct keys at every
nesting level) in which no `null` occurs, swapping `expected` and `actual`
preserves `total_differences` and the type-mismatch count and swaps the
missing/new counts. -/
theorem compute_diff_swap (e a : List (String × Json))
    (hwe : wfFields e = true) (hwa : wfFields a = true)
    (hne : nullFreeFields e = true) (hna : nullFreeFields a = true) :
    (compute_diff e a).total_differences =
      (compute_diff a e).total_differences ∧
    (compute_diff e a).missing_count = (compute_diff a e).new_count ∧
    (compute_diff e a).new_count = (compute_diff a e).missing_count ∧
    (compute_diff e a).type_mismatch_count =
      (compute_diff a e).type_mismatch_count := by
  obtain ⟨h1, h2, h3⟩ :=
    walkObj_symm (sizeOf e + sizeOf a) e a le_rfl hwe hwa hne hna
  simp only [compute_diff]
  exact ⟨by omega, h1, h2, h3⟩

theorem compute_diff_swap_witness :
    wfFields [("x", Json.int 1), ("y", Json.str "s")] = true ∧
    wfFields [("x", Json.bool true)] = true ∧
    nullFreeFields [("x", Json.int 1), ("y", Json.str "s")] = true ∧
    nullFreeFields [("x", Json.bool true)] = true ∧
    ((compute_diff [("x", Json.int 1), ("y", Json.str "s")]
        [("x", Json.bool true)]).total_differences =
      (compute_diff [("x", Json.bool true)]
        [("x", Json.int 1), ("y", Json.str "s")]).total_differences ∧
    (compute_diff [("x", Json.int 1), ("y", Json.str "s")]
        [("x", Json.bool true)]).missing_count =
      (compute_diff [("x", Json.bool true)]
        [("x", Json.int 1), ("y", Json.str "s")]).new_count ∧
    (compute_diff [("x", Json.int 1), ("y", Json.str "s")]
        [("x", Json.bool true)]).new_count =
      (compute_diff [("x", Json.bool true)]
        [("x", Json.int 1), ("y", Json.str "s")]).missing_count ∧
    (compute_diff [("x", Json.int 1), ("y", Json.str "s")]
        [("x", Json.bool true)]).type_mismatch_count =
      (compute_diff [("x", Json.bool true)]
        [("x", Json.int 1), ("y", Json.str "s")]).type_mismatch_count) := by
  have hwe : wfFields [("x", Json.int 1), ("y", Json.str "s")] = true := by
    simp [wfFields, wfKeysFields, wfKeys, keysOf]
  have hwa : wfFields [("x", Json.bool true)] = true := by
    simp [wfFields, wfKeysFields, wfKeys, keysOf]
  have hne : nullFreeFields [("x", Json.int 1), ("y", Json.str "s")] = true := by
    simp [nullFreeFields, nullFree]
  have hna : nullFreeFields [("x", Json.bool true)] = true := by
    simp [nullFreeFields, nullFree]
  exact ⟨hwe, hwa, hne, hna, compute_diff_swap _ _ hwe hwa hne hna⟩

end SchemaDiff

end Sentinel
